import Mathlib

/-!
Verification of the transport-registry server against its specification.

The database state is modelled as lists of rows (one list per table), and each
Express controller method is modelled as a pure function from the database and
the request parameters to either an `ApiError` or the post-transaction
database (plus, for read endpoints, the JSON response).  Sequelize calls are
translated pointwise: `findOne` is `List.find?`, `findAll`/`count` are
`List.filter`, `Model.update` is `List.map` guarded by the `where` clause,
`create` appends a row, and `destroy` filters rows out.  A failed operation
returns `Except.error`, which corresponds to the transaction being rolled
back, so the stored state is unchanged exactly when the result is an error.

The order of database effects (needed for the claims about when the
transaction is opened and whether anything is read or written) is modelled by
separate `...Trace` functions that follow the same control flow and record
the sequence of `DbEvent`s the handler issues.
-/

/-- HTTP error taxonomy of `error/ApiError.js`: bad request (400), not found
(404), conflict (409), internal (500), each carrying its message. -/
inductive ApiError where
  | badRequest (msg : String)
  | notFound (msg : String)
  | conflict (msg : String)
  | internal (msg : String)
deriving DecidableEq

/-- One observable database effect of a handler: opening, committing or
rolling back the transaction, or issuing a read or a write query. -/
inductive DbEvent where
  | txBegin
  | txCommit
  | txRollback
  | dbRead
  | dbWrite
deriving DecidableEq

/-- `NaturalPerson` row: keyed by passport data, with name fields and a
free-text address (reconciled against the Owner table by value). -/
structure NaturalPerson where
  passportData : String
  lastName : String
  firstName : String
  patronymic : String
  address : String
deriving DecidableEq

/-- `LegalEntity` row: keyed by tax number, with company name and address. -/
structure LegalEntity where
  taxNumber : String
  companyName : String
  address : String
deriving DecidableEq

/-- `RegistrationDoc` row: registration number, the address recorded on the
document, the key (passport or tax number) of the owning party, and the VIN
of the vehicle it registers. -/
structure RegistrationDoc where
  registrationNumber : String
  address : String
  documentOwner : String
  vin : String
deriving DecidableEq

/-- `TransportVehicle` row.  `chassisNumber` is nullable in the second
vehicle controller (`hasChassisNumber ? vin : null`), hence `Option`. -/
structure TransportVehicle where
  vin : String
  makeAndModel : String
  releaseYear : String
  manufacture : String
  typeOfDrive : String
  power : String
  chassisNumber : Option String
  bodyNumber : String
  bodyColor : String
  transmissionType : String
  steeringWheel : String
  engineModel : String
  engineVolume : Nat
deriving DecidableEq

/-- `Employee` row, keyed by badge number. -/
structure Employee where
  badgeNumber : String
  unitCode : String
  lastName : String
  firstName : String
  patronymic : String
  rank : String
deriving DecidableEq

/-- `User` row.  `password` stores the bcrypt hash. -/
structure User where
  email : String
  password : String
  role : String
  isActive : Bool
deriving DecidableEq

/-- The relational store.  An `Owner` row consists of a surrogate key and a
single `address` attribute, so the Owner table is modelled as the list of its
address strings. -/
structure DB where
  owners : List String
  naturalPersons : List NaturalPerson
  legalEntities : List LegalEntity
  registrationDocs : List RegistrationDoc
  transportVehicles : List TransportVehicle
  employees : List Employee
  users : List User
deriving DecidableEq

/-! ## String helpers used by the Joi schemas and route parameter checks -/

/-- Character class of the Cyrillic-name patterns `[А-Яа-яЁё\s\-]`. -/
def cyrNameChar (c : Char) : Bool :=
  c.isWhitespace || c == '-' || c == 'Ё' || c == 'ё' ||
    (decide (0x410 ≤ c.toNat) && decide (c.toNat ≤ 0x44F))

/-- `Joi.string().pattern(/^[А-Яа-яЁё\s\-]+$/).min(lo).max(hi)`. -/
def cyrNameOk (lo hi : Nat) (s : String) : Bool :=
  decide (1 ≤ s.length) && s.data.all cyrNameChar &&
    decide (lo ≤ s.length) && decide (s.length ≤ hi)

/-- `Joi.string().min(8).max(255)` for the address fields. -/
def addressOk (s : String) : Bool :=
  decide (8 ≤ s.length) && decide (s.length ≤ 255)

/-- `Joi.string().min(lo).max(hi)` with no pattern. -/
def strLenOk (lo hi : Nat) (s : String) : Bool :=
  decide (lo ≤ s.length) && decide (s.length ≤ hi)

/-- The passport route-parameter pattern `/^\d{4} \d{6}$/`. -/
def passportFormatOk (s : String) : Bool :=
  match s.data with
  | [a, b, c, d, sp, e, f, g, h, i, j] =>
      a.isDigit && b.isDigit && c.isDigit && d.isDigit && sp == ' ' &&
      e.isDigit && f.isDigit && g.isDigit && h.isDigit && i.isDigit && j.isDigit
  | _ => false

/-- `[A-Z0-9]` character class. -/
def upperDigitChar (c : Char) : Bool :=
  (decide ('A' ≤ c) && decide (c ≤ 'Z')) || c.isDigit

/-- VIN pattern of the first vehicle controller, `/^[A-Z0-9]{17}$/`. -/
def vinFormatOk (s : String) : Bool :=
  decide (s.length = 17) && s.data.all upperDigitChar

/-- VIN pattern of the second vehicle controller,
`/^[A-HJ-NPR-Z0-9]{17}$/` (no I, O, Q). -/
def vinFormatV2Ok (s : String) : Bool :=
  decide (s.length = 17) &&
    s.data.all (fun c => upperDigitChar c && !(c == 'I') && !(c == 'O') && !(c == 'Q'))

/-- `/^(19|20)\d{2}$/` for `releaseYear`. -/
def releaseYearOk (s : String) : Bool :=
  match s.data with
  | [a, b, c, d] =>
      ((a == '1' && b == '9') || (a == '2' && b == '0')) && c.isDigit && d.isDigit
  | _ => false

/-- `/^\d+\s*(hp|kW)$/` for `power`. -/
def powerOk (s : String) : Bool :=
  let ds := s.data.takeWhile Char.isDigit
  let rest := s.data.dropWhile Char.isDigit
  let unit := rest.dropWhile Char.isWhitespace
  decide (1 ≤ ds.length) && (rest.takeWhile Char.isWhitespace).all Char.isWhitespace &&
    (unit == "hp".data || unit == "kW".data)

/-- Badge pattern of the first admin employee controller, `/^[A-Z0-9]{5,10}$/`. -/
def badgeFormatOk (s : String) : Bool :=
  decide (5 ≤ s.length) && decide (s.length ≤ 10) && s.data.all upperDigitChar

/-- Badge pattern of the second admin employee controller, `/^\d{2}-\d{4}$/`. -/
def badgeFormatV2Ok (s : String) : Bool :=
  match s.data with
  | [a, b, dash, c, d, e, f] =>
      a.isDigit && b.isDigit && dash == '-' && c.isDigit && d.isDigit && e.isDigit && f.isDigit
  | _ => false

/-- `Joi.string().email()`, modelled as: nonempty text, one `@` separating a
nonempty local part from a domain that contains a dot. -/
def emailOk (s : String) : Bool :=
  match s.data.splitOn '@' with
  | [local_, domain] => decide (1 ≤ local_.length) && domain.any (fun c => c == '.') &&
      decide (1 ≤ domain.length)
  | _ => false

/-- Whether `pat` starts the list `l` (element-wise `==` on a common prefix). -/
def leadMatch : List Char → List Char → Bool
  | [], _ => true
  | _ :: _, [] => false
  | a :: as, b :: bs => a == b && leadMatch as bs

/-- Whether `pat` occurs as a contiguous run inside `l`; models the SQL
`LIKE '%pat%'` filter produced by `Op.like`. -/
def subSeq (pat : List Char) : List Char → Bool
  | [] => pat.isEmpty
  | a :: l => leadMatch pat (a :: l) || subSeq pat l

/-- `LIKE '%pat%'` on strings. -/
def strContains (s pat : String) : Bool :=
  subSeq pat.data s.data

/-- Lexicographic strict order on character lists (by code point). -/
def charListLt : List Char → List Char → Bool
  | [], [] => false
  | [], _ :: _ => true
  | _ :: _, [] => false
  | a :: as, b :: bs =>
      if a.toNat < b.toNat then true
      else if b.toNat < a.toNat then false
      else charListLt as bs

/-- Non-strict string order used to model SQL `ORDER BY` on text columns. -/
def strLe (a b : String) : Bool :=
  a == b || charListLt a.data b.data

/-- `toUpperCase()`, modelled character-wise so that it evaluates. -/
def strToUpper (s : String) : String :=
  ⟨s.data.map Char.toUpper⟩

/-- `toLowerCase()`, modelled character-wise. -/
def strToLower (s : String) : String :=
  ⟨s.data.map Char.toLower⟩

/-- `String.prototype.trim()`: strip leading and trailing whitespace. -/
def strTrim (s : String) : String :=
  ⟨((s.data.dropWhile Char.isWhitespace).reverse.dropWhile Char.isWhitespace).reverse⟩

/-- Insert `x` into `l` before the first element not `le`-below it. -/
def insertSorted (le : α → α → Bool) (x : α) : List α → List α
  | [] => [x]
  | y :: ys => if le x y then x :: y :: ys else y :: insertSorted le x ys

/-- Stable insertion sort; models the `ORDER BY` clause of a query. -/
def sortRowsBy (le : α → α → Bool) : List α → List α
  | [] => []
  | x :: xs => insertSorted le x (sortRowsBy le xs)

/-- `Math.ceil(count / limit)` on naturals (for positive `limit`). -/
def pagesOf (count limit : Nat) : Nat :=
  (count + limit - 1) / limit

/-! ## Joi schemas of `validations/ownerShema.js` -/

/-- Body of `PUT /natural-person`: all four fields required
(`naturalPersonPutSchema`). -/
structure NPPutBody where
  address : String
  lastName : String
  firstName : String
  patronymic : String
deriving DecidableEq

/-- `naturalPersonPutSchema.validate(req.body)` succeeds. -/
def naturalPersonPutOk (b : NPPutBody) : Bool :=
  addressOk b.address && cyrNameOk 2 50 b.lastName &&
    cyrNameOk 2 50 b.firstName && cyrNameOk 2 50 b.patronymic

/-- Body of `PATCH /natural-person`: every field optional, at least one
present (`naturalPersonPatchSchema`, `.min(1)`). -/
structure NPPatchBody where
  address : Option String
  lastName : Option String
  firstName : Option String
  patronymic : Option String
deriving DecidableEq

/-- `naturalPersonPatchSchema.validate(req.body)` succeeds. -/
def naturalPersonPatchOk (b : NPPatchBody) : Bool :=
  b.address.all addressOk && b.lastName.all (cyrNameOk 2 50) &&
    b.firstName.all (cyrNameOk 2 50) && b.patronymic.all (cyrNameOk 2 50) &&
    (b.address.isSome || b.lastName.isSome || b.firstName.isSome || b.patronymic.isSome)

/-- Body of `PUT /legal-entity` (`legalEntityPutSchema`). -/
structure LEPutBody where
  address : String
  companyName : String
deriving DecidableEq

/-- `legalEntityPutSchema.validate(req.body)` succeeds. -/
def legalEntityPutOk (b : LEPutBody) : Bool :=
  addressOk b.address && strLenOk 3 100 b.companyName

/-- Body of `PATCH /legal-entity` (`legalEntityPatchSchema`, `.min(1)`). -/
structure LEPatchBody where
  address : Option String
  companyName : Option String
deriving DecidableEq

/-- `legalEntityPatchSchema.validate(req.body)` succeeds. -/
def legalEntityPatchOk (b : LEPatchBody) : Bool :=
  b.address.all addressOk && b.companyName.all (strLenOk 3 100) &&
    (b.address.isSome || b.companyName.isSome)

/-! ## The owner controller (natural persons and legal entities) -/

/-- Models `Owner.findOne({ where: { address } })` followed by
`Owner.create({ address })` when the lookup returned null (the find-or-create
step of every address change). -/
def ensureOwnerRow (owners : List String) (a : String) : List String :=
  if owners.any (fun o => o == a) then owners else owners ++ [a]

/-- The garbage-collection step shared by all four update handlers: count
the `NaturalPerson`, `LegalEntity` and `RegistrationDoc` rows (in the
post-update tables) whose address equals the old address, and destroy the
old address's Owner rows when all three counts are zero. -/
def gcOwners (owners1 : List String) (oldAddress : String) (ps : List NaturalPerson)
    (es : List LegalEntity) (ds : List RegistrationDoc) : List String :=
  let linkedNaturalPersonCount := (ps.filter (fun p => p.address == oldAddress)).length
  let linkedLegalEntityCount := (es.filter (fun e => e.address == oldAddress)).length
  let linkedRegDocsCount := (ds.filter (fun d => d.address == oldAddress)).length
  if linkedNaturalPersonCount == 0 && linkedLegalEntityCount == 0 &&
      linkedRegDocsCount == 0 then
    owners1.filter (fun o => !(o == oldAddress))
  else owners1

/-- `NaturalPerson.update(updateData)` on one row for the PUT body (all four
fields overwritten). -/
def applyNPPut (b : NPPutBody) (p : NaturalPerson) : NaturalPerson :=
  { p with address := b.address, lastName := b.lastName,
           firstName := b.firstName, patronymic := b.patronymic }

/-- `NaturalPerson.update(updateData)` on one row for a PATCH body (only the
supplied fields overwritten). -/
def applyNPPatch (b : NPPatchBody) (p : NaturalPerson) : NaturalPerson :=
  { p with address := b.address.getD p.address,
           lastName := b.lastName.getD p.lastName,
           firstName := b.firstName.getD p.firstName,
           patronymic := b.patronymic.getD p.patronymic }

/-- The transactional body of `updateNaturalPerson` (part_004 lines 96-161)
once the person row `np` has been found: find-or-create the Owner row for the
new address, rewrite every registration document whose `documentOwner` is
this passport (no address condition in the `where`), update the person row,
then destroy the old address's Owner row if no person, entity or document
still uses it. -/
def updateNPResult (db : DB) (passport : String) (b : NPPutBody) (np : NaturalPerson) : DB :=
  let oldAddress := np.address
  let regDocs := db.registrationDocs.filter (fun d => d.documentOwner == passport)
  let owners1 := ensureOwnerRow db.owners b.address
  let docs1 :=
    if 0 < regDocs.length then
      db.registrationDocs.map (fun d =>
        if d.documentOwner == passport then { d with address := b.address } else d)
    else db.registrationDocs
  let persons1 := db.naturalPersons.map (fun p =>
    if p.passportData == passport then applyNPPut b p else p)
  let owners2 := gcOwners owners1 oldAddress persons1 db.legalEntities docs1
  { db with owners := owners2, naturalPersons := persons1, registrationDocs := docs1 }

/-- `PUT /owner/natural-person/:passport` (part_004 lines 66-179).  The
handler opens a transaction, checks the passport parameter, validates the
body, loads the person, runs the reconciliation and commits; any thrown
error rolls the transaction back, so an error result leaves the store
unchanged. -/
def updateNaturalPerson (db : DB) (passport : String) (b : NPPutBody) : Except ApiError DB :=
  if passport == "" then .error (.badRequest "Passport number is required")
  else if !passportFormatOk passport then
    .error (.badRequest "Invalid passport format (should be \"XXXX XXXXXX\")")
  else if !naturalPersonPutOk b then .error (.badRequest "naturalPersonPutSchema validation failed")
  else
    match db.naturalPersons.find? (fun p => p.passportData == passport) with
    | none => .error (.notFound "Natural person not found")
    | some np =>
        let updatedRows := (db.naturalPersons.filter (fun p => p.passportData == passport)).length
        if updatedRows == 0 then .error (.internal "Failed to update natural person")
        else .ok (updateNPResult db passport b np)

/-- The transactional body of `patchNaturalPerson` (part_004 lines 202-284)
once the person row `np` has been found.  With an address in the body it
find-or-creates the new Owner row, rewrites only this owner's documents
whose address equals the old address, updates the person and
garbage-collects the old Owner row; without one it only updates the person
row. -/
def patchNPResult (db : DB) (passport : String) (b : NPPatchBody) (np : NaturalPerson) : DB :=
  match b.address with
  | some newAddress =>
      let oldAddress := np.address
      let owners1 := ensureOwnerRow db.owners newAddress
      let regDocs := db.registrationDocs.filter (fun d =>
        d.address == oldAddress && d.documentOwner == passport)
      let docs1 :=
        if 0 < regDocs.length then
          db.registrationDocs.map (fun d =>
            if d.address == oldAddress && d.documentOwner == passport then
              { d with address := newAddress }
            else d)
        else db.registrationDocs
      let persons1 := db.naturalPersons.map (fun p =>
        if p.passportData == passport then applyNPPatch b p else p)
      let owners2 := gcOwners owners1 oldAddress persons1 db.legalEntities docs1
      { db with owners := owners2, naturalPersons := persons1, registrationDocs := docs1 }
  | none =>
      { db with naturalPersons := db.naturalPersons.map (fun p =>
          if p.passportData == passport then applyNPPatch b p else p) }

/-- `PATCH /owner/natural-person/:passport` (part_004 lines 181-302): no
passport-format check, body validated against the patch schema, then the
transactional body above.  `if (updateData.address)` is modelled by the
match on `b.address`; the schema rejects empty address strings, so JS
truthiness coincides with `isSome` on validated bodies. -/
def patchNaturalPerson (db : DB) (passport : String) (b : NPPatchBody) : Except ApiError DB :=
  if !naturalPersonPatchOk b then
    .error (.badRequest "naturalPersonPatchSchema validation failed")
  else
    match db.naturalPersons.find? (fun p => p.passportData == passport) with
    | none => .error (.notFound "Natural person not found")
    | some np =>
        let updatedRows := (db.naturalPersons.filter (fun p => p.passportData == passport)).length
        if updatedRows == 0 then .error (.internal "Failed to update natural person")
        else .ok (patchNPResult db passport b np)

/-- `LegalEntity.update(updateData)` for the PUT body. -/
def applyLEPut (b : LEPutBody) (e : LegalEntity) : LegalEntity :=
  { e with address := b.address, companyName := b.companyName }

/-- The transactional body of `updateLegalEntity` (part_004 lines 383-447)
once the entity row `le` has been found.  Note: the Owner find-or-create and
the document rewrite run only when the entity owns at least one document
whose address equals its old address (`registrationDocs.length > 0`). -/
def updateLEResult (db : DB) (taxNumber : String) (b : LEPutBody) (le : LegalEntity) : DB :=
  let oldAddress := le.address
  let regDocs := db.registrationDocs.filter (fun d =>
    d.address == oldAddress && d.documentOwner == taxNumber)
  let owners1 :=
    if 0 < regDocs.length then ensureOwnerRow db.owners b.address else db.owners
  let docs1 :=
    if 0 < regDocs.length then
      db.registrationDocs.map (fun d =>
        if d.address == oldAddress && d.documentOwner == taxNumber then
          { d with address := b.address }
        else d)
    else db.registrationDocs
  let entities1 := db.legalEntities.map (fun e =>
    if e.taxNumber == taxNumber then applyLEPut b e else e)
  let owners2 := gcOwners owners1 oldAddress db.naturalPersons entities1 docs1
  { db with owners := owners2, legalEntities := entities1, registrationDocs := docs1 }

/-- `PUT /owner/legal-entity/:taxNumber` (part_004 lines 362-465). -/
def updateLegalEntity (db : DB) (taxNumber : String) (b : LEPutBody) : Except ApiError DB :=
  if !legalEntityPutOk b then .error (.badRequest "legalEntityPutSchema validation failed")
  else
    match db.legalEntities.find? (fun e => e.taxNumber == taxNumber) with
    | none => .error (.notFound "Legal entity not found")
    | some le =>
        let updatedRows := (db.legalEntities.filter (fun e => e.taxNumber == taxNumber)).length
        if updatedRows == 0 then .error (.internal "Failed to update legal entity")
        else .ok (updateLEResult db taxNumber b le)

/-- The transactional body of `patchLegalEntity` (part_004 lines 488-556).
In the address branch only the address column is written
(`LegalEntity.update({ address: updateData.address })`); without an address
the row is updated with the supplied fields. -/
def patchLEResult (db : DB) (taxNumber : String) (b : LEPatchBody) (le : LegalEntity) : DB :=
  match b.address with
  | some newAddress =>
      let oldAddress := le.address
      let regDocs := db.registrationDocs.filter (fun d =>
        d.address == oldAddress && d.documentOwner == taxNumber)
      let owners1 :=
        if 0 < regDocs.length then ensureOwnerRow db.owners newAddress else db.owners
      let docs1 :=
        if 0 < regDocs.length then
          db.registrationDocs.map (fun d =>
            if d.address == oldAddress && d.documentOwner == taxNumber then
              { d with address := newAddress }
            else d)
        else db.registrationDocs
      let entities1 := db.legalEntities.map (fun e =>
        if e.taxNumber == taxNumber then { e with address := newAddress } else e)
      let owners2 := gcOwners owners1 oldAddress db.naturalPersons entities1 docs1
      { db with owners := owners2, legalEntities := entities1, registrationDocs := docs1 }
  | none =>
      { db with legalEntities := db.legalEntities.map (fun e =>
          if e.taxNumber == taxNumber then
            { e with companyName := b.companyName.getD e.companyName }
          else e) }

/-- `PATCH /owner/legal-entity/:taxNumber` (part_004 lines 467-574). -/
def patchLegalEntity (db : DB) (taxNumber : String) (b : LEPatchBody) : Except ApiError DB :=
  if !legalEntityPatchOk b then .error (.badRequest "legalEntityPatchSchema validation failed")
  else
    match db.legalEntities.find? (fun e => e.taxNumber == taxNumber) with
    | none => .error (.notFound "Legal entity not found")
    | some le =>
        match b.address with
        | some _ =>
            let updatedRows :=
              (db.legalEntities.filter (fun e => e.taxNumber == taxNumber)).length
            if updatedRows == 0 then .error (.internal "Failed to update legal entity")
            else .ok (patchLEResult db taxNumber b le)
        | none => .ok (patchLEResult db taxNumber b le)

/-! ## Effect traces of the owner update handlers

Each handler calls `sequelize.transaction()` on its very first line, before
the parameter checks and the Joi validation; a validation failure is
answered with `return next(ApiError.badRequest(...))`, which neither commits
nor rolls back, so the trace of a rejected request is just `[txBegin]`. -/

/-- Events issued by `updateNaturalPerson`, in program order. -/
def updateNaturalPersonTrace (db : DB) (passport : String) (b : NPPutBody) : List DbEvent :=
  if passport == "" then [.txBegin]
  else if !passportFormatOk passport then [.txBegin]
  else if !naturalPersonPutOk b then [.txBegin]
  else
    match db.naturalPersons.find? (fun p => p.passportData == passport) with
    | none => [.txBegin, .dbRead]
    | some np =>
        let regDocs := db.registrationDocs.filter (fun d => d.documentOwner == passport)
        let createsOwner := !db.owners.any (fun o => o == b.address)
        let destroysOld :=
          (updateNPResult db passport b np).owners ≠ (ensureOwnerRow db.owners b.address)
        [.txBegin, .dbRead, .dbRead, .dbRead] ++
          (if createsOwner then [.dbWrite] else []) ++
          (if 0 < regDocs.length then [.dbWrite] else []) ++
          [.dbWrite, .dbRead, .dbRead, .dbRead] ++
          (if destroysOld then [.dbWrite] else []) ++ [.txCommit]

/-- Events issued by `patchNaturalPerson`, in program order. -/
def patchNaturalPersonTrace (db : DB) (passport : String) (b : NPPatchBody) : List DbEvent :=
  if !naturalPersonPatchOk b then [.txBegin]
  else
    match db.naturalPersons.find? (fun p => p.passportData == passport) with
    | none => [.txBegin, .dbRead]
    | some np =>
        match b.address with
        | some newAddress =>
            let createsOwner := !db.owners.any (fun o => o == newAddress)
            let regDocs := db.registrationDocs.filter (fun d =>
              d.address == np.address && d.documentOwner == passport)
            let destroysOld :=
              (patchNPResult db passport b np).owners ≠ (ensureOwnerRow db.owners newAddress)
            [.txBegin, .dbRead, .dbRead] ++ (if createsOwner then [.dbWrite] else []) ++
              [.dbRead] ++ (if 0 < regDocs.length then [.dbWrite] else []) ++
              [.dbWrite, .dbRead, .dbRead, .dbRead] ++
              (if destroysOld then [.dbWrite] else []) ++ [.txCommit]
        | none => [.txBegin, .dbRead, .dbWrite, .txCommit]

/-- Events issued by `updateLegalEntity`, in program order. -/
def updateLegalEntityTrace (db : DB) (taxNumber : String) (b : LEPutBody) : List DbEvent :=
  if !legalEntityPutOk b then [.txBegin]
  else
    match db.legalEntities.find? (fun e => e.taxNumber == taxNumber) with
    | none => [.txBegin, .dbRead]
    | some le =>
        let regDocs := db.registrationDocs.filter (fun d =>
          d.address == le.address && d.documentOwner == taxNumber)
        let createsOwner := !db.owners.any (fun o => o == b.address)
        let destroysOld := (updateLEResult db taxNumber b le).owners ≠
          (if 0 < regDocs.length then ensureOwnerRow db.owners b.address else db.owners)
        [.txBegin, .dbRead, .dbRead] ++
          (if 0 < regDocs.length then
            ([.dbRead] ++ (if createsOwner then [.dbWrite] else []) ++ [.dbWrite])
           else []) ++
          [.dbWrite, .dbRead, .dbRead, .dbRead] ++
          (if destroysOld then [.dbWrite] else []) ++ [.txCommit]

/-- Events issued by `patchLegalEntity`, in program order. -/
def patchLegalEntityTrace (db : DB) (taxNumber : String) (b : LEPatchBody) : List DbEvent :=
  if !legalEntityPatchOk b then [.txBegin]
  else
    match db.legalEntities.find? (fun e => e.taxNumber == taxNumber) with
    | none => [.txBegin, .dbRead]
    | some le =>
        match b.address with
        | some newAddress =>
            let regDocs := db.registrationDocs.filter (fun d =>
              d.address == le.address && d.documentOwner == taxNumber)
            let createsOwner := !db.owners.any (fun o => o == newAddress)
            let destroysOld := (patchLEResult db taxNumber b le).owners ≠
              (if 0 < regDocs.length then ensureOwnerRow db.owners newAddress else db.owners)
            [.txBegin, .dbRead, .dbRead] ++
              (if 0 < regDocs.length then
                ([.dbRead] ++ (if createsOwner then [.dbWrite] else []) ++ [.dbWrite])
               else []) ++
              [.dbWrite, .dbRead, .dbRead, .dbRead] ++
              (if destroysOld then [.dbWrite] else []) ++ [.txCommit]
        | none => [.txBegin, .dbRead, .dbWrite, .txCommit]

/-! ## The Owner-registry invariant -/

/-- Whether some person, entity or document row in the given tables carries
the address `a`. -/
def usedAddrT (ps : List NaturalPerson) (es : List LegalEntity)
    (ds : List RegistrationDoc) (a : String) : Bool :=
  ps.any (fun p => p.address == a) || es.any (fun e => e.address == a) ||
    ds.any (fun d => d.address == a)

/-- Whether the address `a` is referenced by any party or document row. -/
def usedAddr (db : DB) (a : String) : Bool :=
  usedAddrT db.naturalPersons db.legalEntities db.registrationDocs a

/-- Number of Owner rows carrying the address `a`. -/
def ocount (owners : List String) (a : String) : Nat :=
  (owners.filter (fun o => o == a)).length

/-- The Owner-registry invariant: every referenced address has exactly one
Owner row, every unreferenced address has none. -/
def OwnerInv (db : DB) : Prop :=
  ∀ a : String, ocount db.owners a = if usedAddr db a then 1 else 0

/-- Primary keys are unique: no two person rows share a passport and no two
entity rows share a tax number (the schema's primary-key constraints). -/
def WFKeys (db : DB) : Prop :=
  (db.naturalPersons.map (fun p => p.passportData)).Nodup ∧
    (db.legalEntities.map (fun e => e.taxNumber)).Nodup

/-- All address strings occurring anywhere in the store. -/
def addrsOf (db : DB) : List String :=
  db.owners ++ db.naturalPersons.map (fun p => p.address) ++
    db.legalEntities.map (fun e => e.address) ++
    db.registrationDocs.map (fun d => d.address)

/-- Executable check equivalent to `OwnerInv`. -/
def invCheck (db : DB) : Bool :=
  (addrsOf db).all (fun a => ocount db.owners a == if usedAddr db a then 1 else 0)

/-! ## Employee vehicle controllers -/

/-- Body of the first `updateTransportVehicle` (its local `vehicleSchema`,
all fields required). -/
structure VehicleBody where
  vin : String
  makeAndModel : String
  releaseYear : String
  manufacture : String
  typeOfDrive : String
  power : String
  chassisNumber : String
  bodyNumber : String
  bodyColor : String
  transmissionType : String
  steeringWheel : String
  engineModel : String
  engineVolume : Nat
deriving DecidableEq

/-- `vehicleSchema.validate(req.body)` of the first vehicle controller. -/
def vehicleSchemaOk (b : VehicleBody) : Bool :=
  vinFormatOk b.vin && strLenOk 2 100 b.makeAndModel && releaseYearOk b.releaseYear &&
    strLenOk 2 100 b.manufacture &&
    (b.typeOfDrive == "FWD" || b.typeOfDrive == "RWD" || b.typeOfDrive == "AWD" ||
      b.typeOfDrive == "4WD") &&
    powerOk b.power && strLenOk 5 50 b.chassisNumber && strLenOk 5 50 b.bodyNumber &&
    strLenOk 2 50 b.bodyColor &&
    (b.transmissionType == "manual" || b.transmissionType == "automatic" ||
      b.transmissionType == "CVT" || b.transmissionType == "semi-automatic") &&
    (b.steeringWheel == "left" || b.steeringWheel == "right") &&
    strLenOk 2 50 b.engineModel &&
    decide (500 ≤ b.engineVolume) && decide (b.engineVolume ≤ 10000)

/-- `vehicle.update(req.body, { fields: [...] })`: every descriptive field is
overwritten; `vin` is not in the field list and is untouched. -/
def applyVehicleUpdate (b : VehicleBody) (v : TransportVehicle) : TransportVehicle :=
  { v with makeAndModel := b.makeAndModel, releaseYear := b.releaseYear,
           manufacture := b.manufacture, typeOfDrive := b.typeOfDrive, power := b.power,
           chassisNumber := some b.chassisNumber, bodyNumber := b.bodyNumber,
           bodyColor := b.bodyColor, transmissionType := b.transmissionType,
           steeringWheel := b.steeringWheel, engineModel := b.engineModel,
           engineVolume := b.engineVolume }

/-- First `updateTransportVehicle` (employee/vehicleController.js lines
120-168): after validation and the VIN-change guard it loads the vehicle,
and when some `RegistrationDoc` references this VIN it rejects any change
to the restricted fields `vin`, `chassisNumber`, `bodyNumber`,
`engineModel` (in that order) with a BadRequest naming the field; a thrown
error rolls the transaction back, leaving the vehicle row unchanged. -/
def updateTransportVehicle (db : DB) (id : String) (b : VehicleBody) : Except ApiError DB :=
  if !vehicleSchemaOk b then .error (.badRequest "vehicleSchema validation failed")
  else if !(b.vin == "") && !(b.vin == id) then .error (.badRequest "Cannot change VIN")
  else
    match db.transportVehicles.find? (fun v => v.vin == id) with
    | none => .error (.notFound "Vehicle not found")
    | some vehicle =>
        let hasRegDocs := (db.registrationDocs.find? (fun d => d.vin == id)).isSome
        if hasRegDocs && !(b.vin == "") && !(b.vin == vehicle.vin) then
          .error (.badRequest "Cannot change vin for vehicle with registration documents")
        else if hasRegDocs && !(b.chassisNumber == "") &&
            !(some b.chassisNumber == vehicle.chassisNumber) then
          .error (.badRequest "Cannot change chassisNumber for vehicle with registration documents")
        else if hasRegDocs && !(b.bodyNumber == "") && !(b.bodyNumber == vehicle.bodyNumber) then
          .error (.badRequest "Cannot change bodyNumber for vehicle with registration documents")
        else if hasRegDocs && !(b.engineModel == "") && !(b.engineModel == vehicle.engineModel) then
          .error (.badRequest "Cannot change engineModel for vehicle with registration documents")
        else
          .ok { db with transportVehicles := db.transportVehicles.map (fun v =>
                  if v.vin == id then applyVehicleUpdate b v else v) }

/-- Modelled from the spec: `vehicleUpdateSchema` lives in
`validations/vehicleShema.js`, which is not under src/; only its use in the
second `updateTransportVehicle` is.  The handler reads the descriptive
fields and the boolean `hasChassisNumber`, so the body is modelled with
exactly those fields. -/
structure VehicleUpdateBody where
  makeAndModel : String
  releaseYear : String
  manufacture : String
  typeOfDrive : String
  power : String
  bodyColor : String
  transmissionType : String
  steeringWheel : String
  engineModel : String
  engineVolume : Nat
  hasChassisNumber : Bool
deriving DecidableEq

/-- Modelled from the spec: the validation rules of the missing
`vehicleUpdateSchema`, taken from the constraints the repository applies to
the same fields elsewhere (second controller's list-query schema). -/
def vehicleUpdateSchemaOk (b : VehicleUpdateBody) : Bool :=
  strLenOk 2 100 b.makeAndModel && releaseYearOk b.releaseYear &&
    strLenOk 2 100 b.manufacture &&
    (b.typeOfDrive == "FWD" || b.typeOfDrive == "RWD" || b.typeOfDrive == "AWD" ||
      b.typeOfDrive == "4WD") &&
    strLenOk 2 50 b.bodyColor &&
    (b.transmissionType == "MT" || b.transmissionType == "AT" || b.transmissionType == "AMT" ||
      b.transmissionType == "CVT" || b.transmissionType == "DCT") &&
    (b.steeringWheel == "Правостороннее" || b.steeringWheel == "Левостороннее") &&
    strLenOk 1 50 b.engineModel &&
    decide (500 ≤ b.engineVolume) && decide (b.engineVolume ≤ 7400)

/-- Second `updateTransportVehicle` (employee/vehicleController.js lines
280-356): VIN-format check, schema validation, vehicle lookup, then an
unconditional update whose `chassisNumber` is `vin` when
`hasChassisNumber` is set and null otherwise — with no check of
registration documents. -/
def updateTransportVehicleV2 (db : DB) (vin : String) (b : VehicleUpdateBody) :
    Except ApiError DB :=
  if !vinFormatV2Ok vin then
    .error (.badRequest "Неверный формат VIN. VIN должен содержать 17 символов и не может содержать буквы I, O, Q")
  else if !vehicleUpdateSchemaOk b then
    .error (.badRequest "vehicleUpdateSchema validation failed")
  else
    match db.transportVehicles.find? (fun v => v.vin == vin) with
    | none => .error (.notFound "Транспортное средство не найдено")
    | some _ =>
        .ok { db with transportVehicles := db.transportVehicles.map (fun v =>
                if v.vin == vin then
                  { v with makeAndModel := b.makeAndModel, releaseYear := b.releaseYear,
                           manufacture := b.manufacture, typeOfDrive := b.typeOfDrive,
                           power := b.power, bodyColor := b.bodyColor,
                           transmissionType := b.transmissionType,
                           steeringWheel := b.steeringWheel, engineModel := b.engineModel,
                           engineVolume := b.engineVolume,
                           chassisNumber := if b.hasChassisNumber then some vin else none }
                else v) }

/-! ## Vehicle list endpoint (first controller) -/

/-- Query of the first `getAllTransportVehicle`. -/
structure VehicleListQuery where
  limit : Option Nat
  page : Option Nat
  makeAndModel : Option String
  releaseYear : Option String
  bodyColor : Option String
  typeOfDrive : Option String
  sortBy : Option String
  sortOrder : Option String
deriving DecidableEq

/-- The Joi query schema of the first `getAllTransportVehicle`, checks in
declaration order, first failure reported (Joi's default abort-early). -/
def vehicleListQueryError (q : VehicleListQuery) : Option String :=
  if !(q.limit.all (fun n => decide (1 ≤ n) && decide (n ≤ 100))) then
    some "limit must be less than or equal to 100"
  else if !(q.page.all (fun n => decide (1 ≤ n))) then
    some "page must be greater than or equal to 1"
  else if !(q.releaseYear.all releaseYearOk) then
    some "releaseYear fails to match the required pattern"
  else if !(q.typeOfDrive.all (fun s =>
      s == "FWD" || s == "RWD" || s == "AWD" || s == "4WD")) then
    some "typeOfDrive must be one of FWD, RWD, AWD, 4WD"
  else if !(q.sortBy.all (fun s =>
      s == "makeAndModel" || s == "releaseYear" || s == "engineVolume")) then
    some "sortBy must be one of makeAndModel, releaseYear, engineVolume"
  else if !(q.sortOrder.all (fun s => s == "ASC" || s == "DESC")) then
    some "sortOrder must be one of ASC, DESC"
  else none

/-- The `where` clause built by the first `getAllTransportVehicle`. -/
def vehicleMatches (q : VehicleListQuery) (v : TransportVehicle) : Bool :=
  q.makeAndModel.all (fun s => strContains v.makeAndModel s) &&
    q.releaseYear.all (fun s => v.releaseYear == s) &&
    q.bodyColor.all (fun s => strContains v.bodyColor s) &&
    q.typeOfDrive.all (fun s => v.typeOfDrive == s)

/-- `ORDER BY` comparator of the first `getAllTransportVehicle`. -/
def vehicleLe (sortBy sortOrder : String) (a b : TransportVehicle) : Bool :=
  let le : TransportVehicle → TransportVehicle → Bool :=
    if sortBy == "engineVolume" then fun x y => decide (x.engineVolume ≤ y.engineVolume)
    else if sortBy == "releaseYear" then fun x y => strLe x.releaseYear y.releaseYear
    else fun x y => strLe x.makeAndModel y.makeAndModel
  if sortOrder == "DESC" then le b a else le a b

/-- First `getAllTransportVehicle` (employee/vehicleController.js lines
30-79).  A validation failure throws `ApiError.badRequest`, but the
handler's catch-all answers `next(ApiError.internal(e.message))`, so the
client receives an internal error.  The response on success is
`{ total, pages, currentPage, data }`, encoded as an association list of the
scalar fields plus the row list. -/
def getAllTransportVehicle (db : DB) (q : VehicleListQuery) :
    Except ApiError (List (String × Nat) × List TransportVehicle) :=
  match vehicleListQueryError q with
  | some msg => .error (.internal msg)
  | none =>
      let limit := q.limit.getD 20
      let page := q.page.getD 1
      let offset := (page - 1) * limit
      let matched := db.transportVehicles.filter (vehicleMatches q)
      let sorted :=
        sortRowsBy (vehicleLe (q.sortBy.getD "makeAndModel") (q.sortOrder.getD "ASC")) matched
      let rows := (sorted.drop offset).take limit
      .ok ([("total", matched.length), ("pages", pagesOf matched.length limit),
            ("currentPage", page)], rows)

/-- Effect trace of the first `getAllTransportVehicle`: the validation runs
before any query, so a rejected request touches no data. -/
def getAllTransportVehicleTrace (db : DB) (q : VehicleListQuery) : List DbEvent :=
  match vehicleListQueryError q with
  | some _ => []
  | none => [.dbRead]

/-! ## Natural-person list endpoint (part_004 lines 9-41) -/

/-- Query of `getAllNaturalPersons`; absent parameters take the JS
destructuring defaults. -/
structure NPListQuery where
  page : Option Nat
  limit : Option Nat
  sortBy : Option String
  sortOrder : Option String
deriving DecidableEq

/-- Sort key selected by the validated `sortBy`. -/
def npSortKey (sortBy : String) (p : NaturalPerson) : String :=
  if sortBy == "address" then p.address else p.passportData

/-- `GET /owner/natural-person` (part_004 lines 9-41): allow-list check of
`sortBy` and `sortOrder`, then `findAndCountAll` with order, limit and
`offset = (page-1)*limit`.  There is no Joi schema and no bound on `limit`.
The response is `{ total, page, limit, data }`. -/
def getAllNaturalPersons (db : DB) (q : NPListQuery) :
    Except ApiError (List (String × Nat) × List NaturalPerson) :=
  let page := q.page.getD 1
  let limit := q.limit.getD 10
  let sortBy := q.sortBy.getD "passportData"
  let sortOrder := q.sortOrder.getD "ASC"
  if !(sortBy == "passportData" || sortBy == "address") then
    .error (.badRequest "Invalid sort field. Allowed fields: passportData, address")
  else if !(strToUpper sortOrder == "ASC" || strToUpper sortOrder == "DESC") then
    .error (.badRequest "Invalid sort order. Use ASC or DESC")
  else
    let offset := (page - 1) * limit
    let le := fun p1 p2 =>
      if strToUpper sortOrder == "DESC" then strLe (npSortKey sortBy p2) (npSortKey sortBy p1)
      else strLe (npSortKey sortBy p1) (npSortKey sortBy p2)
    let rows := ((sortRowsBy le db.naturalPersons).drop offset).take limit
    .ok ([("total", db.naturalPersons.length), ("page", page), ("limit", limit)], rows)

/-- Effect trace of `getAllNaturalPersons`: the sort-field checks run before
the single `findAndCountAll` read. -/
def getAllNaturalPersonsTrace (db : DB) (q : NPListQuery) : List DbEvent :=
  let sortBy := (q.sortBy.getD "passportData")
  let sortOrder := (q.sortOrder.getD "ASC")
  if !(sortBy == "passportData" || sortBy == "address") then []
  else if !(strToUpper sortOrder == "ASC" || strToUpper sortOrder == "DESC") then []
  else [.dbRead]

/-! ## Admin employee controllers -/

/-- `employeeSchema` of the first admin employee controller. -/
def employeeSchemaOk (b : Employee) : Bool :=
  badgeFormatOk b.badgeNumber && strLenOk 3 50 b.unitCode && strLenOk 2 50 b.lastName &&
    strLenOk 2 50 b.firstName && strLenOk 2 50 b.patronymic && strLenOk 2 50 b.rank

/-- `employeeSchema` of the second admin employee controller. -/
def employeeSchemaV2Ok (b : Employee) : Bool :=
  badgeFormatV2Ok b.badgeNumber && decide (b.unitCode.length = 6) && cyrNameOk 2 50 b.lastName &&
    cyrNameOk 2 50 b.firstName && cyrNameOk 2 50 b.patronymic && cyrNameOk 2 50 b.rank

/-- First `createEmployee` (employeeCrudController.js lines 71-100):
validate, look the badge number up inside the transaction, answer Conflict
when it exists, otherwise create the row and commit. -/
def createEmployee (db : DB) (b : Employee) : Except ApiError DB :=
  if !employeeSchemaOk b then .error (.badRequest "employeeSchema validation failed")
  else
    match db.employees.find? (fun e => e.badgeNumber == b.badgeNumber) with
    | some _ => .error (.conflict "Employee with this badge number already exists")
    | none => .ok { db with employees := db.employees ++ [b] }

/-- Effect trace of the first `createEmployee`; a thrown Conflict is rolled
back, so no write event is issued on the duplicate-badge path. -/
def createEmployeeTrace (db : DB) (b : Employee) : List DbEvent :=
  if !employeeSchemaOk b then [.txBegin, .txRollback]
  else
    match db.employees.find? (fun e => e.badgeNumber == b.badgeNumber) with
    | some _ => [.txBegin, .dbRead, .txRollback]
    | none => [.txBegin, .dbRead, .dbWrite, .txCommit]

/-- Second `createEmployee` (employeeCrudController.js lines 305-332): same
logic with the second controller's stricter schema. -/
def createEmployeeV2 (db : DB) (b : Employee) : Except ApiError DB :=
  if !employeeSchemaV2Ok b then .error (.badRequest "employeeSchema validation failed")
  else
    match db.employees.find? (fun e => e.badgeNumber == b.badgeNumber) with
    | some _ => .error (.conflict "Employee with this badge number already exists")
    | none => .ok { db with employees := db.employees ++ [b] }

/-- Effect trace of the second `createEmployee`. -/
def createEmployeeV2Trace (db : DB) (b : Employee) : List DbEvent :=
  if !employeeSchemaV2Ok b then [.txBegin, .txRollback]
  else
    match db.employees.find? (fun e => e.badgeNumber == b.badgeNumber) with
    | some _ => [.txBegin, .dbRead, .txRollback]
    | none => [.txBegin, .dbRead, .dbWrite, .txCommit]

/-- Query of the second `getAllEmployees`. -/
structure EmpListQuery where
  limit : Option Nat
  page : Option Nat
  badgeNumber : Option String
  unitCode : Option String
  lastName : Option String
  firstName : Option String
  patronymic : Option String
  rank : Option String
  sortField : Option String
  sortOrder : Option String
deriving DecidableEq

/-- The Joi `value` of the second `getAllEmployees` query after defaults. -/
structure EmpListValue where
  limit : Nat
  page : Nat
  badgeNumber : Option String
  unitCode : Option String
  lastName : Option String
  firstName : Option String
  patronymic : Option String
  rank : Option String
  sortField : String
  sortOrder : String
deriving DecidableEq

/-- Allow-list of `sortField` in the second `getAllEmployees`. -/
def empSortFields : List String :=
  ["badgeNumber", "unitCode", "lastName", "firstName", "patronymic", "rank"]

/-- Validation of the second `getAllEmployees` query: `limit` is capped at
50 (default 15), `unitCode` must have length 6, `sortField` must be in the
allow-list, `sortOrder` (lowercased and trimmed by the handler before
validation) must be `asc` or `desc`. -/
def empListValidate (q : EmpListQuery) : Except String EmpListValue :=
  let so := q.sortOrder.map (fun s => strTrim (strToLower s))
  if !(q.limit.all (fun n => decide (1 ≤ n) && decide (n ≤ 50))) then
    .error "limit must be less than or equal to 50"
  else if !(q.page.all (fun n => decide (1 ≤ n))) then
    .error "page must be greater than or equal to 1"
  else if !(q.unitCode.all (fun s => decide (s.length = 6))) then
    .error "unitCode length must be 6 characters long"
  else if !(q.sortField.all (fun s => empSortFields.contains s)) then
    .error "sortField must be one of badgeNumber, unitCode, lastName, firstName, patronymic, rank"
  else if !(so.all (fun s => s == "asc" || s == "desc")) then
    .error "sortOrder must be one of asc, desc"
  else
    .ok { limit := q.limit.getD 15, page := q.page.getD 1, badgeNumber := q.badgeNumber,
          unitCode := q.unitCode, lastName := q.lastName, firstName := q.firstName,
          patronymic := q.patronymic, rank := q.rank,
          sortField := q.sortField.getD "lastName", sortOrder := so.getD "asc" }

/-- The `where` clause of the second `getAllEmployees` (LIKE filters on the
name fields and badge, equality on `unitCode`). -/
def empMatches (v : EmpListValue) (e : Employee) : Bool :=
  v.badgeNumber.all (fun s => strContains e.badgeNumber s) &&
    v.unitCode.all (fun s => e.unitCode == s) &&
    v.lastName.all (fun s => strContains e.lastName s) &&
    v.firstName.all (fun s => strContains e.firstName s) &&
    v.patronymic.all (fun s => strContains e.patronymic s) &&
    v.rank.all (fun s => strContains e.rank s)

/-- Sort key of the second `getAllEmployees`. -/
def empSortKey (f : String) (e : Employee) : String :=
  if f == "badgeNumber" then e.badgeNumber
  else if f == "unitCode" then e.unitCode
  else if f == "firstName" then e.firstName
  else if f == "patronymic" then e.patronymic
  else if f == "rank" then e.rank
  else e.lastName

/-- Second `getAllEmployees` (employeeCrudController.js lines 206-277):
validated query, LIKE filters, allow-listed sort, offset pagination, and the
`{ total, pages, currentPage, data }` response with
`pages = Math.ceil(total / limit)`. -/
def getAllEmployeesV2 (db : DB) (q : EmpListQuery) :
    Except ApiError (List (String × Nat) × List Employee) :=
  match empListValidate q with
  | .error msg => .error (.badRequest msg)
  | .ok v =>
      let offset := (v.page - 1) * v.limit
      let matched := db.employees.filter (empMatches v)
      let le := fun a b =>
        if v.sortOrder == "desc" then strLe (empSortKey v.sortField b) (empSortKey v.sortField a)
        else strLe (empSortKey v.sortField a) (empSortKey v.sortField b)
      let rows := ((sortRowsBy le matched).drop offset).take v.limit
      .ok ([("total", matched.length), ("pages", pagesOf matched.length v.limit),
            ("currentPage", v.page)], rows)

/-! ## Admin user controller -/

/-- Body of `createUser` (`userSchema`). -/
structure UserBody where
  email : String
  password : String
  role : String
  isActive : Bool
deriving DecidableEq

/-- `userSchema.validate(req.body)` succeeds: email format, password length
6..50, role in the allow-list (`isActive` is a required boolean, which the
typed body carries by construction). -/
def userSchemaOk (b : UserBody) : Bool :=
  emailOk b.email && strLenOk 6 50 b.password && (b.role == "user" || b.role == "admin")

/-- A user row as returned to the client: the `password` attribute is
excluded by the list query and stripped by the create handler. -/
structure UserView where
  email : String
  role : String
  isActive : Bool
deriving DecidableEq

/-- Projection dropping the stored password hash. -/
def toUserView (u : User) : UserView :=
  { email := u.email, role := u.role, isActive := u.isActive }

/-- Query of `getAllUser`. -/
structure UserListQuery where
  limit : Option Nat
  page : Option Nat
  search : Option String
  role : Option String
deriving DecidableEq

/-- The Joi query schema of `getAllUser`. -/
def userListQueryError (q : UserListQuery) : Option String :=
  if !(q.limit.all (fun n => decide (1 ≤ n) && decide (n ≤ 100))) then
    some "limit must be less than or equal to 100"
  else if !(q.page.all (fun n => decide (1 ≤ n))) then
    some "page must be greater than or equal to 1"
  else if !(q.role.all (fun s => s == "user" || s == "admin")) then
    some "role must be one of user, admin"
  else none

/-- The `where` clause of `getAllUser` (email LIKE search, role equality). -/
def userMatches (q : UserListQuery) (u : User) : Bool :=
  q.search.all (fun s => strContains u.email s) && q.role.all (fun r => u.role == r)

/-- `getAllUser` (userCrudController.js lines 22-59): validated query,
filters, order by email, offset pagination, and
`attributes: { exclude: ['password'] }` on the returned rows.  Its
catch-all wraps any thrown error in `ApiError.internal`. -/
def getAllUser (db : DB) (q : UserListQuery) :
    Except ApiError (List (String × Nat) × List UserView) :=
  match userListQueryError q with
  | some msg => .error (.internal msg)
  | none =>
      let limit := q.limit.getD 20
      let page := q.page.getD 1
      let offset := (page - 1) * limit
      let matched := db.users.filter (userMatches q)
      let sorted := sortRowsBy (fun u1 u2 => strLe u1.email u2.email) matched
      let rows := ((sorted.drop offset).take limit).map toUserView
      .ok ([("total", matched.length), ("pages", pagesOf matched.length limit),
            ("currentPage", page)], rows)

/-- `createUser` (userCrudController.js lines 67-104): validate, reject a
duplicate email with Conflict, hash the password (bcrypt is modelled as the
uninterpreted function `hash`), store the row, and answer with the created
user minus its password field. -/
def createUser (hash : String → String) (db : DB) (b : UserBody) :
    Except ApiError (DB × UserView) :=
  if !userSchemaOk b then .error (.badRequest "userSchema validation failed")
  else
    match db.users.find? (fun u => u.email == b.email) with
    | some _ => .error (.conflict "User with this email already exists")
    | none =>
        let newUser : User :=
          { email := b.email, password := hash b.password, role := b.role,
            isActive := b.isActive }
        .ok ({ db with users := db.users ++ [newUser] }, toUserView newUser)

/-! ## Counting lemmas for the Owner table -/

theorem ocount_append (l1 l2 : List String) (a : String) :
    ocount (l1 ++ l2) a = ocount l1 a + ocount l2 a := by
  simp [ocount, List.filter_append]

theorem ocount_singleton (x a : String) :
    ocount [x] a = if x == a then 1 else 0 := by
  by_cases h : x == a <;> simp [ocount, List.filter_cons, h]

theorem any_eq_ocount_pos (l : List String) (a : String) :
    l.any (fun o => o == a) = true ↔ 0 < ocount l a := by
  induction l with
  | nil => simp [ocount]
  | cons x xs ih =>
      by_cases h : x == a <;>
        simp [ocount, List.filter_cons, h, List.any_cons, ih]

theorem ocount_eq_count (l : List String) (a : String) : ocount l a = l.count a := by
  rw [ocount, List.count, List.countP_eq_length_filter]

theorem ocount_filter_excl (l : List String) (x a : String) :
    ocount (l.filter (fun o => !(o == x))) a = if a = x then 0 else ocount l a := by
  by_cases hax : a = x
  · subst hax
    rw [if_pos rfl, ocount_eq_count, List.count_eq_zero.mpr]
    intro hmem
    have := List.of_mem_filter hmem
    simp at this
  · rw [if_neg hax, ocount_eq_count, ocount_eq_count, List.count_filter]
    simp [hax]

/-! ## Find-or-create and garbage-collection lemmas -/

theorem ocount_ensure_self (l : List String) (a : String) :
    ocount (ensureOwnerRow l a) a = if 0 < ocount l a then ocount l a else 1 := by
  unfold ensureOwnerRow
  by_cases h : l.any (fun o => o == a)
  · have := (any_eq_ocount_pos l a).mp h
    simp [h, this]
  · have : ¬ 0 < ocount l a := fun hc => h ((any_eq_ocount_pos l a).mpr hc)
    have h0 : ocount l a = 0 := by omega
    simp [h, ocount_append, ocount_singleton, h0, this]

theorem ocount_ensure_other (l : List String) (a b : String) (hne : b ≠ a) :
    ocount (ensureOwnerRow l a) b = ocount l b := by
  unfold ensureOwnerRow
  by_cases h : l.any (fun o => o == a)
  · simp [h]
  · have : (a == b) = false := by simpa [beq_eq_false_iff_ne] using fun h => hne h.symm
    simp [h, ocount_append, ocount_singleton, this]

theorem filter_length_beq_zero {α : Type} (p : α → Bool) (l : List α) :
    (((l.filter p).length == 0) : Bool) = !(l.any p) := by
  induction l with
  | nil => simp
  | cons x xs ih =>
      by_cases h : p x <;> simp [List.filter_cons, List.any_cons, h, ih]

theorem ite_not_flip {α : Type} (b : Bool) (X Y : α) :
    (if (!b) = true then X else Y) = if b = true then Y else X := by
  cases b <;> simp

theorem gcOwners_eq (owners1 : List String) (oldA : String) (ps : List NaturalPerson)
    (es : List LegalEntity) (ds : List RegistrationDoc) :
    gcOwners owners1 oldA ps es ds =
      if usedAddrT ps es ds oldA then owners1
      else owners1.filter (fun o => !(o == oldA)) := by
  simp only [gcOwners, usedAddrT, filter_length_beq_zero, ← Bool.not_or]
  rw [ite_not_flip]

/-- Core lemma of the address-reconciliation routine: starting from a table
satisfying the registry invariant for the pre-state usage `upre`, the
find-or-create of the new address followed by the conditional destruction of
the old address yields a table satisfying the invariant for the post-state
usage `upost`, provided the old address was used before, the new address is
used after, and no other address changes usage. -/
theorem reconcile_ocount (owners : List String) (upre upost : String → Bool)
    (oldA newA : String)
    (hInv : ∀ a, ocount owners a = if upre a then 1 else 0)
    (hold : upre oldA = true)
    (hnew : upost newA = true)
    (hoth : ∀ a, a ≠ oldA → a ≠ newA → upost a = upre a) (a : String) :
    ocount (if upost oldA then ensureOwnerRow owners newA
            else (ensureOwnerRow owners newA).filter (fun o => !(o == oldA))) a
      = if upost a then 1 else 0 := by
  have hEnew : ocount (ensureOwnerRow owners newA) newA = 1 := by
    rw [ocount_ensure_self, hInv newA]
    by_cases hu : upre newA <;> simp [hu]
  have hEoth : ∀ c, c ≠ newA → ocount (ensureOwnerRow owners newA) c = ocount owners c :=
    fun c hc => ocount_ensure_other owners newA c hc
  by_cases hgc : upost oldA = true
  · rw [if_pos hgc]
    by_cases haN : a = newA
    · subst haN; rw [hEnew, if_pos hnew]
    · rw [hEoth a haN, hInv a]
      by_cases haO : a = oldA
      · subst haO; rw [hold, hgc]
      · rw [hoth a haO haN]
  · have hgc' : upost oldA = false := by
      cases h : upost oldA
      · rfl
      · exact absurd h hgc
    rw [if_neg hgc]
    rw [ocount_filter_excl]
    by_cases haO : a = oldA
    · subst haO; rw [if_pos rfl, hgc']; simp
    · rw [if_neg haO]
      by_cases haN : a = newA
      · subst haN; rw [hEnew, if_pos hnew]
      · rw [hEoth a haN, hInv a, hoth a haO haN]

/-- If `f` either keeps `g x` or moves it from `oldA` to `newA`, then for any
other address `a` the mapped list references `a` exactly when the original
did. -/
theorem any_map_move {α : Type} (l : List α) (f : α → α) (g : α → String)
    (oldA newA a : String) (haO : a ≠ oldA) (haN : a ≠ newA)
    (h : ∀ x ∈ l, g (f x) = g x ∨ (g (f x) = newA ∧ g x = oldA)) :
    (l.map f).any (fun x => g x == a) = l.any (fun x => g x == a) := by
  induction l with
  | nil => rfl
  | cons x xs ih =>
      have hx := h x (by simp)
      have hxs := fun y hy => h y (List.mem_cons_of_mem x hy)
      simp only [List.map_cons, List.any_cons, ih hxs]
      congr 1
      rcases hx with h1 | ⟨h2, h3⟩
      · rw [h1]
      · rw [h2, h3]
        have hN : (newA == a) = false := by
          simp [beq_eq_false_iff_ne]; exact fun h => haN h.symm
        have hO : (oldA == a) = false := by
          simp [beq_eq_false_iff_ne]; exact fun h => haO h.symm
        rw [hN, hO]

theorem any_map_keep {α : Type} (l : List α) (f : α → α) (g : α → String) (a : String)
    (h : ∀ x ∈ l, g (f x) = g x) :
    (l.map f).any (fun x => g x == a) = l.any (fun x => g x == a) := by
  induction l with
  | nil => rfl
  | cons x xs ih =>
      simp only [List.map_cons, List.any_cons,
        ih (fun y hy => h y (List.mem_cons_of_mem x hy))]
      congr 1
      rw [h x (List.mem_cons_self x xs)]

/-- Primary-key lookup is unique when the key column has no duplicates. -/
theorem key_unique {α : Type} (l : List α) (f : α → String)
    (hnd : (l.map f).Nodup) {x y : α} (hx : x ∈ l) (hy : y ∈ l) (hf : f x = f y) : x = y :=
  List.inj_on_of_nodup_map hnd hx hy hf

theorem ocount_eq_zero_of_not_mem (l : List String) (a : String) (h : a ∉ l) :
    ocount l a = 0 := by
  rw [ocount_eq_count]
  exact List.count_eq_zero.mpr h

theorem ownerInv_iff_invCheck (db : DB) : OwnerInv db ↔ invCheck db = true := by
  constructor
  · intro h
    unfold invCheck
    rw [List.all_eq_true]
    intro a _
    simp [h a]
  · intro h a
    by_cases ha : a ∈ addrsOf db
    · have := List.all_eq_true.mp h a ha
      simpa [beq_iff_eq] using this
    · have h1 : ocount db.owners a = 0 :=
        ocount_eq_zero_of_not_mem _ _ (fun hm => ha (by unfold addrsOf; simp [hm]))
      have h2 : usedAddr db a = false := by
        cases hu : usedAddr db a
        · rfl
        · exfalso
          apply ha
          unfold usedAddr usedAddrT at hu
          simp only [Bool.or_eq_true, List.any_eq_true] at hu
          unfold addrsOf
          simp only [List.mem_append, List.mem_map]
          rcases hu with (⟨p, hp, he⟩ | ⟨e, hee, he⟩) | ⟨d, hd, he⟩
          · exact Or.inl (Or.inl (Or.inr ⟨p, hp, beq_iff_eq.mp he⟩))
          · exact Or.inl (Or.inr ⟨e, hee, beq_iff_eq.mp he⟩)
          · exact Or.inr ⟨d, hd, beq_iff_eq.mp he⟩
      rw [h1, h2]
      rfl

instance : DecidablePred OwnerInv := fun db =>
  decidable_of_iff (invCheck db = true) (ownerInv_iff_invCheck db).symm

/-- The whole owner-table effect of a successful address change: starting
from the invariant, find-or-create of the new address followed by the
count-and-destroy of the old address restores the invariant for the updated
row tables, provided the old address was referenced before, the new address
is referenced after, and no other address changes its referenced-status. -/
theorem reconcile_preserved (db : DB) (oldA newA : String)
    (ps : List NaturalPerson) (es : List LegalEntity) (ds : List RegistrationDoc)
    (hInv : OwnerInv db)
    (hold : usedAddr db oldA = true)
    (hnew : usedAddrT ps es ds newA = true)
    (hothP : ∀ c, c ≠ oldA → c ≠ newA →
        (ps.any (fun p => p.address == c)) = (db.naturalPersons.any (fun p => p.address == c)))
    (hothE : ∀ c, c ≠ oldA → c ≠ newA →
        (es.any (fun e => e.address == c)) = (db.legalEntities.any (fun e => e.address == c)))
    (hothD : ∀ c, c ≠ oldA → c ≠ newA →
        (ds.any (fun d => d.address == c)) =
          (db.registrationDocs.any (fun d => d.address == c)))
    (a : String) :
    ocount (gcOwners (ensureOwnerRow db.owners newA) oldA ps es ds) a
      = if usedAddrT ps es ds a then 1 else 0 := by
  rw [gcOwners_eq]
  exact reconcile_ocount db.owners (fun c => usedAddr db c) (fun c => usedAddrT ps es ds c)
    oldA newA hInv hold hnew
    (fun c hcO hcN => by
      show usedAddrT ps es ds c = usedAddr db c
      unfold usedAddr usedAddrT
      rw [hothP c hcO hcN, hothE c hcO hcN, hothD c hcO hcN]) a

/-! ## Success characterisations of the four owner update handlers -/

theorem updateNaturalPerson_ok_elim (db : DB) (passport : String) (b : NPPutBody) (db' : DB)
    (h : updateNaturalPerson db passport b = .ok db') :
    naturalPersonPutOk b = true ∧
      ∃ np, db.naturalPersons.find? (fun p => p.passportData == passport) = some np ∧
        db' = updateNPResult db passport b np := by
  unfold updateNaturalPerson at h
  split at h
  · simp at h
  split at h
  · simp at h
  split at h
  next hval => simp at h
  next hval =>
    split at h
    · simp at h
    next np hfind =>
      dsimp only at h
      split at h
      · simp at h
      · exact ⟨by simpa using hval, np, hfind, (by simpa using h.symm)⟩

theorem patchNaturalPerson_ok_elim (db : DB) (passport : String) (b : NPPatchBody) (db' : DB)
    (h : patchNaturalPerson db passport b = .ok db') :
    naturalPersonPatchOk b = true ∧
      ∃ np, db.naturalPersons.find? (fun p => p.passportData == passport) = some np ∧
        db' = patchNPResult db passport b np := by
  unfold patchNaturalPerson at h
  split at h
  next hval => simp at h
  next hval =>
    split at h
    · simp at h
    next np hfind =>
      dsimp only at h
      split at h
      · simp at h
      · exact ⟨by simpa using hval, np, hfind, (by simpa using h.symm)⟩

theorem updateLegalEntity_ok_elim (db : DB) (taxNumber : String) (b : LEPutBody) (db' : DB)
    (h : updateLegalEntity db taxNumber b = .ok db') :
    legalEntityPutOk b = true ∧
      ∃ le, db.legalEntities.find? (fun e => e.taxNumber == taxNumber) = some le ∧
        db' = updateLEResult db taxNumber b le := by
  unfold updateLegalEntity at h
  split at h
  next hval => simp at h
  next hval =>
    split at h
    · simp at h
    next le hfind =>
      dsimp only at h
      split at h
      · simp at h
      · exact ⟨by simpa using hval, le, hfind, (by simpa using h.symm)⟩

theorem patchLegalEntity_ok_elim (db : DB) (taxNumber : String) (b : LEPatchBody) (db' : DB)
    (h : patchLegalEntity db taxNumber b = .ok db') :
    legalEntityPatchOk b = true ∧
      ∃ le, db.legalEntities.find? (fun e => e.taxNumber == taxNumber) = some le ∧
        db' = patchLEResult db taxNumber b le := by
  unfold patchLegalEntity at h
  split at h
  next hval => simp at h
  next hval =>
    split at h
    · simp at h
    next le hfind =>
      split at h
      · dsimp only at h
        split at h
        · simp at h
        · exact ⟨by simpa using hval, le, hfind, (by simpa using h.symm)⟩
      · exact ⟨by simpa using hval, le, hfind, (by simpa using h.symm)⟩

/-! ## Invariant preservation of the four reconciliation bodies -/

theorem updateNPResult_inv (db : DB) (passport : String) (b : NPPutBody) (np : NaturalPerson)
    (hWF : (db.naturalPersons.map (fun p => p.passportData)).Nodup)
    (hInv : OwnerInv db)
    (hfind : db.naturalPersons.find? (fun p => p.passportData == passport) = some np)
    (hAligned : ∀ d ∈ db.registrationDocs, d.documentOwner = passport →
        d.address = np.address) :
    OwnerInv (updateNPResult db passport b np) := by
  have hmem : np ∈ db.naturalPersons := List.mem_of_find?_eq_some hfind
  have hkey : np.passportData = passport := by
    have := List.find?_some hfind
    simpa [beq_iff_eq] using this
  have hold : usedAddr db np.address = true := by
    unfold usedAddr usedAddrT
    have h1 : db.naturalPersons.any (fun p => p.address == np.address) = true :=
      List.any_eq_true.mpr ⟨np, hmem, by simp⟩
    rw [h1]
    simp
  have hP : ∀ c, c ≠ np.address → c ≠ b.address →
      ((db.naturalPersons.map (fun p =>
          if p.passportData == passport then applyNPPut b p else p)).any
        (fun p => p.address == c))
        = db.naturalPersons.any (fun p => p.address == c) := by
    intro c hcO hcN
    apply any_map_move _ _ _ np.address b.address c hcO hcN
    intro p hp
    by_cases hpk : (p.passportData == passport) = true
    · have hpEq : p = np :=
        key_unique _ _ hWF hp hmem (by rw [beq_iff_eq.mp hpk, hkey])
      right
      refine ⟨by simp [hpk, applyNPPut], by rw [hpEq]⟩
    · left
      simp [hpk]
  have hD : ∀ c, c ≠ np.address → c ≠ b.address →
      ((if 0 < (db.registrationDocs.filter (fun d => d.documentOwner == passport)).length then
          db.registrationDocs.map (fun d =>
            if d.documentOwner == passport then { d with address := b.address } else d)
        else db.registrationDocs).any (fun d => d.address == c))
        = db.registrationDocs.any (fun d => d.address == c) := by
    intro c hcO hcN
    by_cases hg :
        0 < (db.registrationDocs.filter (fun d => d.documentOwner == passport)).length
    · rw [if_pos hg]
      apply any_map_move _ _ _ np.address b.address c hcO hcN
      intro d hd
      by_cases hdk : (d.documentOwner == passport) = true
      · right
        exact ⟨by simp [hdk], hAligned d hd (beq_iff_eq.mp hdk)⟩
      · left
        simp [hdk]
    · rw [if_neg hg]
  have hnew : usedAddrT
      (db.naturalPersons.map (fun p =>
        if p.passportData == passport then applyNPPut b p else p))
      db.legalEntities
      (if 0 < (db.registrationDocs.filter (fun d => d.documentOwner == passport)).length then
          db.registrationDocs.map (fun d =>
            if d.documentOwner == passport then { d with address := b.address } else d)
        else db.registrationDocs)
      b.address = true := by
    unfold usedAddrT
    have h1 : (db.naturalPersons.map (fun p =>
        if p.passportData == passport then applyNPPut b p else p)).any
        (fun p => p.address == b.address) = true := by
      apply List.any_eq_true.mpr
      refine ⟨applyNPPut b np, ?_, by simp [applyNPPut]⟩
      have heq : (fun p => if p.passportData == passport then applyNPPut b p else p) np
          = applyNPPut b np := by simp [hkey]
      exact heq ▸ List.mem_map_of_mem _ hmem
    rw [h1]
    simp
  intro a
  simp only [updateNPResult]
  exact reconcile_preserved db np.address b.address _ db.legalEntities _ hInv hold hnew hP
    (fun c _ _ => rfl) hD a

theorem patchNPResult_some_inv (db : DB) (passport : String) (b : NPPatchBody)
    (np : NaturalPerson) (newA : String) (hb : b.address = some newA)
    (hWF : (db.naturalPersons.map (fun p => p.passportData)).Nodup)
    (hInv : OwnerInv db)
    (hfind : db.naturalPersons.find? (fun p => p.passportData == passport) = some np) :
    OwnerInv (patchNPResult db passport b np) := by
  have hmem : np ∈ db.naturalPersons := List.mem_of_find?_eq_some hfind
  have hkey : np.passportData = passport := by
    have := List.find?_some hfind
    simpa [beq_iff_eq] using this
  have hold : usedAddr db np.address = true := by
    unfold usedAddr usedAddrT
    have h1 : db.naturalPersons.any (fun p => p.address == np.address) = true :=
      List.any_eq_true.mpr ⟨np, hmem, by simp⟩
    rw [h1]
    simp
  have hP : ∀ c, c ≠ np.address → c ≠ newA →
      ((db.naturalPersons.map (fun p =>
          if p.passportData == passport then applyNPPatch b p else p)).any
        (fun p => p.address == c))
        = db.naturalPersons.any (fun p => p.address == c) := by
    intro c hcO hcN
    apply any_map_move _ _ _ np.address newA c hcO hcN
    intro p hp
    by_cases hpk : (p.passportData == passport) = true
    · have hpEq : p = np :=
        key_unique _ _ hWF hp hmem (by rw [beq_iff_eq.mp hpk, hkey])
      right
      refine ⟨by simp [hpk, applyNPPatch, hb], by rw [hpEq]⟩
    · left
      simp [hpk]
  have hD : ∀ c, c ≠ np.address → c ≠ newA →
      ((if 0 < (db.registrationDocs.filter (fun d =>
            d.address == np.address && d.documentOwner == passport)).length then
          db.registrationDocs.map (fun d =>
            if d.address == np.address && d.documentOwner == passport then
              { d with address := newA }
            else d)
        else db.registrationDocs).any (fun d => d.address == c))
        = db.registrationDocs.any (fun d => d.address == c) := by
    intro c hcO hcN
    by_cases hg : 0 < (db.registrationDocs.filter (fun d =>
        d.address == np.address && d.documentOwner == passport)).length
    · rw [if_pos hg]
      apply any_map_move _ _ _ np.address newA c hcO hcN
      intro d hd
      by_cases hdk : (d.address == np.address && d.documentOwner == passport) = true
      · right
        have := (Bool.and_eq_true _ _).mp hdk
        exact ⟨by simp [hdk], beq_iff_eq.mp this.1⟩
      · left
        simp [hdk]
    · rw [if_neg hg]
  have hnew : usedAddrT
      (db.naturalPersons.map (fun p =>
        if p.passportData == passport then applyNPPatch b p else p))
      db.legalEntities
      (if 0 < (db.registrationDocs.filter (fun d =>
            d.address == np.address && d.documentOwner == passport)).length then
          db.registrationDocs.map (fun d =>
            if d.address == np.address && d.documentOwner == passport then
              { d with address := newA }
            else d)
        else db.registrationDocs)
      newA = true := by
    unfold usedAddrT
    have h1 : (db.naturalPersons.map (fun p =>
        if p.passportData == passport then applyNPPatch b p else p)).any
        (fun p => p.address == newA) = true := by
      apply List.any_eq_true.mpr
      refine ⟨applyNPPatch b np, ?_, by simp [applyNPPatch, hb]⟩
      have heq : (fun p => if p.passportData == passport then applyNPPatch b p else p) np
          = applyNPPatch b np := by simp [hkey]
      exact heq ▸ List.mem_map_of_mem _ hmem
    rw [h1]
    simp
  intro a
  simp only [patchNPResult, hb]
  exact reconcile_preserved db np.address newA _ db.legalEntities _ hInv hold hnew hP
    (fun c _ _ => rfl) hD a

theorem patchNPResult_none_inv (db : DB) (passport : String) (b : NPPatchBody)
    (np : NaturalPerson) (hb : b.address = none) (hInv : OwnerInv db) :
    OwnerInv (patchNPResult db passport b np) := by
  intro a
  simp only [patchNPResult, hb]
  have hP : ((db.naturalPersons.map (fun p =>
      if p.passportData == passport then applyNPPatch b p else p)).any
      (fun p => p.address == a)) = db.naturalPersons.any (fun p => p.address == a) := by
    apply any_map_keep
    intro p hp
    by_cases hpk : (p.passportData == passport) = true <;> simp [hpk, applyNPPatch, hb]
  have := hInv a
  unfold usedAddr usedAddrT at this
  simp only [usedAddr, usedAddrT]
  simp only [hP]
  exact this

theorem updateLEResult_inv (db : DB) (taxNumber : String) (b : LEPutBody) (le : LegalEntity)
    (hWF : (db.legalEntities.map (fun e => e.taxNumber)).Nodup)
    (hInv : OwnerInv db)
    (hfind : db.legalEntities.find? (fun e => e.taxNumber == taxNumber) = some le)
    (hsafe : 0 < (db.registrationDocs.filter (fun d =>
        d.address == le.address && d.documentOwner == taxNumber)).length ∨
      usedAddr db b.address = true) :
    OwnerInv (updateLEResult db taxNumber b le) := by
  have hmem : le ∈ db.legalEntities := List.mem_of_find?_eq_some hfind
  have hkey : le.taxNumber = taxNumber := by
    have := List.find?_some hfind
    simpa [beq_iff_eq] using this
  have hold : usedAddr db le.address = true := by
    unfold usedAddr usedAddrT
    have h1 : db.legalEntities.any (fun e => e.address == le.address) = true :=
      List.any_eq_true.mpr ⟨le, hmem, by simp⟩
    rw [h1]
    simp
  have hown1 : (if 0 < (db.registrationDocs.filter (fun d =>
        d.address == le.address && d.documentOwner == taxNumber)).length then
      ensureOwnerRow db.owners b.address else db.owners) = ensureOwnerRow db.owners b.address := by
    by_cases hg : 0 < (db.registrationDocs.filter (fun d =>
        d.address == le.address && d.documentOwner == taxNumber)).length
    · rw [if_pos hg]
    · rw [if_neg hg]
      rcases hsafe with h | h
      · exact absurd h hg
      · have hany : db.owners.any (fun o => o == b.address) = true := by
          rw [any_eq_ocount_pos, hInv b.address, h]
          simp
        unfold ensureOwnerRow
        rw [if_pos hany]
  have hE : ∀ c, c ≠ le.address → c ≠ b.address →
      ((db.legalEntities.map (fun e =>
          if e.taxNumber == taxNumber then applyLEPut b e else e)).any
        (fun e => e.address == c))
        = db.legalEntities.any (fun e => e.address == c) := by
    intro c hcO hcN
    apply any_map_move _ _ _ le.address b.address c hcO hcN
    intro e he
    by_cases hek : (e.taxNumber == taxNumber) = true
    · have heEq : e = le :=
        key_unique _ _ hWF he hmem (by rw [beq_iff_eq.mp hek, hkey])
      right
      refine ⟨by simp [hek, applyLEPut], by rw [heEq]⟩
    · left
      simp [hek]
  have hD : ∀ c, c ≠ le.address → c ≠ b.address →
      ((if 0 < (db.registrationDocs.filter (fun d =>
            d.address == le.address && d.documentOwner == taxNumber)).length then
          db.registrationDocs.map (fun d =>
            if d.address == le.address && d.documentOwner == taxNumber then
              { d with address := b.address }
            else d)
        else db.registrationDocs).any (fun d => d.address == c))
        = db.registrationDocs.any (fun d => d.address == c) := by
    intro c hcO hcN
    by_cases hg : 0 < (db.registrationDocs.filter (fun d =>
        d.address == le.address && d.documentOwner == taxNumber)).length
    · rw [if_pos hg]
      apply any_map_move _ _ _ le.address b.address c hcO hcN
      intro d hd
      by_cases hdk : (d.address == le.address && d.documentOwner == taxNumber) = true
      · right
        have := (Bool.and_eq_true _ _).mp hdk
        exact ⟨by simp [hdk], beq_iff_eq.mp this.1⟩
      · left
        simp [hdk]
    · rw [if_neg hg]
  have hnew : usedAddrT db.naturalPersons
      (db.legalEntities.map (fun e =>
        if e.taxNumber == taxNumber then applyLEPut b e else e))
      (if 0 < (db.registrationDocs.filter (fun d =>
            d.address == le.address && d.documentOwner == taxNumber)).length then
          db.registrationDocs.map (fun d =>
            if d.address == le.address && d.documentOwner == taxNumber then
              { d with address := b.address }
            else d)
        else db.registrationDocs)
      b.address = true := by
    unfold usedAddrT
    have h1 : (db.legalEntities.map (fun e =>
        if e.taxNumber == taxNumber then applyLEPut b e else e)).any
        (fun e => e.address == b.address) = true := by
      apply List.any_eq_true.mpr
      refine ⟨applyLEPut b le, ?_, by simp [applyLEPut]⟩
      have heq : (fun e => if e.taxNumber == taxNumber then applyLEPut b e else e) le
          = applyLEPut b le := by simp [hkey]
      exact heq ▸ List.mem_map_of_mem _ hmem
    rw [h1]
    simp
  intro a
  simp only [updateLEResult]
  rw [hown1]
  exact reconcile_preserved db le.address b.address db.naturalPersons _ _ hInv hold hnew
    (fun c _ _ => rfl) hE hD a

theorem patchLEResult_some_inv (db : DB) (taxNumber : String) (b : LEPatchBody)
    (le : LegalEntity) (newA : String) (hb : b.address = some newA)
    (hWF : (db.legalEntities.map (fun e => e.taxNumber)).Nodup)
    (hInv : OwnerInv db)
    (hfind : db.legalEntities.find? (fun e => e.taxNumber == taxNumber) = some le)
    (hsafe : 0 < (db.registrationDocs.filter (fun d =>
        d.address == le.address && d.documentOwner == taxNumber)).length ∨
      usedAddr db newA = true) :
    OwnerInv (patchLEResult db taxNumber b le) := by
  have hmem : le ∈ db.legalEntities := List.mem_of_find?_eq_some hfind
  have hkey : le.taxNumber = taxNumber := by
    have := List.find?_some hfind
    simpa [beq_iff_eq] using this
  have hold : usedAddr db le.address = true := by
    unfold usedAddr usedAddrT
    have h1 : db.legalEntities.any (fun e => e.address == le.address) = true :=
      List.any_eq_true.mpr ⟨le, hmem, by simp⟩
    rw [h1]
    simp
  have hown1 : (if 0 < (db.registrationDocs.filter (fun d =>
        d.address == le.address && d.documentOwner == taxNumber)).length then
      ensureOwnerRow db.owners newA else db.owners) = ensureOwnerRow db.owners newA := by
    by_cases hg : 0 < (db.registrationDocs.filter (fun d =>
        d.address == le.address && d.documentOwner == taxNumber)).length
    · rw [if_pos hg]
    · rw [if_neg hg]
      rcases hsafe with h | h
      · exact absurd h hg
      · have hany : db.owners.any (fun o => o == newA) = true := by
          rw [any_eq_ocount_pos, hInv newA, h]
          simp
        unfold ensureOwnerRow
        rw [if_pos hany]
  have hE : ∀ c, c ≠ le.address → c ≠ newA →
      ((db.legalEntities.map (fun e =>
          if e.taxNumber == taxNumber then { e with address := newA } else e)).any
        (fun e => e.address == c))
        = db.legalEntities.any (fun e => e.address == c) := by
    intro c hcO hcN
    apply any_map_move _ _ _ le.address newA c hcO hcN
    intro e he
    by_cases hek : (e.taxNumber == taxNumber) = true
    · have heEq : e = le :=
        key_unique _ _ hWF he hmem (by rw [beq_iff_eq.mp hek, hkey])
      right
      refine ⟨by simp [hek], by rw [heEq]⟩
    · left
      simp [hek]
  have hD : ∀ c, c ≠ le.address → c ≠ newA →
      ((if 0 < (db.registrationDocs.filter (fun d =>
            d.address == le.address && d.documentOwner == taxNumber)).length then
          db.registrationDocs.map (fun d =>
            if d.address == le.address && d.documentOwner == taxNumber then
              { d with address := newA }
            else d)
        else db.registrationDocs).any (fun d => d.address == c))
        = db.registrationDocs.any (fun d => d.address == c) := by
    intro c hcO hcN
    by_cases hg : 0 < (db.registrationDocs.filter (fun d =>
        d.address == le.address && d.documentOwner == taxNumber)).length
    · rw [if_pos hg]
      apply any_map_move _ _ _ le.address newA c hcO hcN
      intro d hd
      by_cases hdk : (d.address == le.address && d.documentOwner == taxNumber) = true
      · right
        have := (Bool.and_eq_true _ _).mp hdk
        exact ⟨by simp [hdk], beq_iff_eq.mp this.1⟩
      · left
        simp [hdk]
    · rw [if_neg hg]
  have hnew : usedAddrT db.naturalPersons
      (db.legalEntities.map (fun e =>
        if e.taxNumber == taxNumber then { e with address := newA } else e))
      (if 0 < (db.registrationDocs.filter (fun d =>
            d.address == le.address && d.documentOwner == taxNumber)).length then
          db.registrationDocs.map (fun d =>
            if d.address == le.address && d.documentOwner == taxNumber then
              { d with address := newA }
            else d)
        else db.registrationDocs)
      newA = true := by
    unfold usedAddrT
    have h1 : (db.legalEntities.map (fun e =>
        if e.taxNumber == taxNumber then { e with address := newA } else e)).any
        (fun e => e.address == newA) = true := by
      apply List.any_eq_true.mpr
      refine ⟨{ le with address := newA }, ?_, by simp⟩
      have heq : (fun e => if e.taxNumber == taxNumber then { e with address := newA } else e) le
          = { le with address := newA } := by simp [hkey]
      exact heq ▸ List.mem_map_of_mem _ hmem
    rw [h1]
    simp
  intro a
  simp only [patchLEResult, hb]
  rw [hown1]
  exact reconcile_preserved db le.address newA db.naturalPersons _ _ hInv hold hnew
    (fun c _ _ => rfl) hE hD a

theorem patchLEResult_none_inv (db : DB) (taxNumber : String) (b : LEPatchBody)
    (le : LegalEntity) (hb : b.address = none) (hInv : OwnerInv db) :
    OwnerInv (patchLEResult db taxNumber b le) := by
  intro a
  simp only [patchLEResult, hb]
  have hE : ((db.legalEntities.map (fun e =>
      if e.taxNumber == taxNumber then
        { e with companyName := b.companyName.getD e.companyName }
      else e)).any (fun e => e.address == a))
      = db.legalEntities.any (fun e => e.address == a) := by
    apply any_map_keep
    intro e he
    by_cases hek : (e.taxNumber == taxNumber) = true <;> simp [hek]
  have := hInv a
  unfold usedAddr usedAddrT at this
  simp only [usedAddr, usedAddrT]
  simp only [hE]
  exact this

/-! ## Claim C1 -/

/-- Every registration document owned by the party carries the party's
current address (no historical document with a diverged address). -/
def npDocsAligned (db : DB) (passport : String) : Prop :=
  ∀ d ∈ db.registrationDocs, d.documentOwner = passport →
    ∀ p ∈ db.naturalPersons, p.passportData = passport → d.address = p.address

/-- The side condition under which the legal-entity handlers run their
find-or-create step: the entity owns a document at its old address, or the
new address is already referenced. -/
def leSafeChange (db : DB) (taxNumber newA : String) : Prop :=
  ∀ e ∈ db.legalEntities, e.taxNumber = taxNumber →
    (0 < (db.registrationDocs.filter (fun d =>
        d.address == e.address && d.documentOwner == taxNumber)).length ∨
      usedAddr db newA = true)

/-- C1 (amended). The Owner-registry invariant (`OwnerInv`: every referenced
address has exactly one Owner row, every unreferenced address has none) is
preserved, on stores with unique party keys, by: `patchNaturalPerson`
unconditionally; `updateNaturalPerson` provided every document owned by the
party carries the party's current address; `updateLegalEntity` and
`patchLegalEntity` provided the entity owns a document at its old address or
the new address is already referenced.  (The claim's unconditional
preservation for all four handlers is refuted by
`claim1_invariant_counterexample`.) -/
theorem claim1_invariant_preservation :
    (∀ (db db' : DB) (passport : String) (b : NPPatchBody), WFKeys db → OwnerInv db →
        patchNaturalPerson db passport b = .ok db' → OwnerInv db') ∧
    (∀ (db db' : DB) (passport : String) (b : NPPutBody), WFKeys db → OwnerInv db →
        npDocsAligned db passport →
        updateNaturalPerson db passport b = .ok db' → OwnerInv db') ∧
    (∀ (db db' : DB) (taxNumber : String) (b : LEPutBody), WFKeys db → OwnerInv db →
        leSafeChange db taxNumber b.address →
        updateLegalEntity db taxNumber b = .ok db' → OwnerInv db') ∧
    (∀ (db db' : DB) (taxNumber : String) (b : LEPatchBody), WFKeys db → OwnerInv db →
        (∀ newA, b.address = some newA → leSafeChange db taxNumber newA) →
        patchLegalEntity db taxNumber b = .ok db' → OwnerInv db') := by
  refine ⟨?_, ?_, ?_, ?_⟩
  · intro db db' passport b hWF hInv h
    obtain ⟨hval, np, hfind, rfl⟩ := patchNaturalPerson_ok_elim db passport b db' h
    cases hb : b.address with
    | some newA => exact patchNPResult_some_inv db passport b np newA hb hWF.1 hInv hfind
    | none => exact patchNPResult_none_inv db passport b np hb hInv
  · intro db db' passport b hWF hInv hAligned h
    obtain ⟨hval, np, hfind, rfl⟩ := updateNaturalPerson_ok_elim db passport b db' h
    have hmem : np ∈ db.naturalPersons := List.mem_of_find?_eq_some hfind
    have hkey : np.passportData = passport := by
      have := List.find?_some hfind
      simpa [beq_iff_eq] using this
    exact updateNPResult_inv db passport b np hWF.1 hInv hfind
      (fun d hd hdo => hAligned d hd hdo np hmem hkey)
  · intro db db' taxNumber b hWF hInv hsafe h
    obtain ⟨hval, le, hfind, rfl⟩ := updateLegalEntity_ok_elim db taxNumber b db' h
    have hmem : le ∈ db.legalEntities := List.mem_of_find?_eq_some hfind
    have hkey : le.taxNumber = taxNumber := by
      have := List.find?_some hfind
      simpa [beq_iff_eq] using this
    exact updateLEResult_inv db taxNumber b le hWF.2 hInv hfind (hsafe le hmem hkey)
  · intro db db' taxNumber b hWF hInv hsafe h
    obtain ⟨hval, le, hfind, rfl⟩ := patchLegalEntity_ok_elim db taxNumber b db' h
    have hmem : le ∈ db.legalEntities := List.mem_of_find?_eq_some hfind
    have hkey : le.taxNumber = taxNumber := by
      have := List.find?_some hfind
      simpa [beq_iff_eq] using this
    cases hb : b.address with
    | some newA =>
        exact patchLEResult_some_inv db taxNumber b le newA hb hWF.2 hInv hfind
          (hsafe newA hb le hmem hkey)
    | none => exact patchLEResult_none_inv db taxNumber b le hb hInv

instance (db : DB) : Decidable (WFKeys db) := by
  unfold WFKeys
  infer_instance

instance (db : DB) (passport : String) : Decidable (npDocsAligned db passport) := by
  unfold npDocsAligned
  infer_instance

instance (db : DB) (taxNumber newA : String) : Decidable (leSafeChange db taxNumber newA) := by
  unfold leSafeChange
  infer_instance

/-- Store for the C1 witness: one person, whose address has its Owner row. -/
def dbW1 : DB :=
  { owners := ["Lenina Street 5"],
    naturalPersons := [{ passportData := "1234 567890", lastName := "Иванов",
                         firstName := "Иван", patronymic := "Иванович",
                         address := "Lenina Street 5" }],
    legalEntities := [], registrationDocs := [], transportVehicles := [],
    employees := [], users := [] }

/-- Patch body moving the C1 witness person to a fresh address. -/
def bW1 : NPPatchBody :=
  { address := some "Pushkina Street 7", lastName := none, firstName := none,
    patronymic := none }

/-- Store after the C1 witness patch: the old Owner row was collected and a
row for the new address exists. -/
def dbW1post : DB :=
  { dbW1 with owners := ["Pushkina Street 7"],
              naturalPersons := [{ passportData := "1234 567890", lastName := "Иванов",
                                   firstName := "Иван", patronymic := "Иванович",
                                   address := "Pushkina Street 7" }] }

/-- Witness for C1: a concrete successful `patchNaturalPerson` run on a
store satisfying the invariant, whose post-state satisfies it again. -/
theorem claim1_invariant_preservation_witness : OwnerInv dbW1post :=
  claim1_invariant_preservation.1 dbW1 dbW1post "1234 567890" bW1 (by decide) (by decide) rfl

/-- Store for the C1 counterexample: one legal entity with no registration
documents, invariant satisfied. -/
def dbX1 : DB :=
  { owners := ["Tverskaya Street 1"],
    naturalPersons := [],
    legalEntities := [{ taxNumber := "1234567890", companyName := "Acme LLC",
                        address := "Tverskaya Street 1" }],
    registrationDocs := [], transportVehicles := [], employees := [], users := [] }

/-- PUT body moving the C1 counterexample entity to a fresh address. -/
def bX1 : LEPutBody := { address := "Arbat Street 22", companyName := "Acme LLC" }

/-- Store produced by that run: the entity sits at "Arbat Street 22" but no
Owner row exists for it (the handler only find-or-creates the new Owner row
when the entity owns a registration document at its old address). -/
def dbX1post : DB :=
  { dbX1 with owners := [],
              legalEntities := [{ taxNumber := "1234567890", companyName := "Acme LLC",
                                  address := "Arbat Street 22" }] }

/-- Counterexample to C1 as stated: a successful `updateLegalEntity` run
that starts from a store satisfying the Owner-registry invariant (with
unique keys) and ends in one violating it — the moved entity's new address
has no Owner row, because the entity owned no registration document. -/
theorem claim1_invariant_counterexample :
    WFKeys dbX1 ∧ OwnerInv dbX1 ∧
      updateLegalEntity dbX1 "1234567890" bX1 = .ok dbX1post ∧ ¬ OwnerInv dbX1post :=
  ⟨by decide, by decide, rfl, by decide⟩

/-! ## Presence of Owner rows after find-or-create and garbage collection -/

theorem any_ensure_self (l : List String) (a : String) :
    (ensureOwnerRow l a).any (fun o => o == a) = true := by
  unfold ensureOwnerRow
  by_cases h : l.any (fun o => o == a) = true
  · rw [if_pos h]; exact h
  · rw [if_neg h, List.any_append]
    simp

theorem any_ensure_other (l : List String) (a c : String) (h : c ≠ a) :
    (ensureOwnerRow l a).any (fun o => o == c) = l.any (fun o => o == c) := by
  unfold ensureOwnerRow
  by_cases ha : l.any (fun o => o == a) = true
  · rw [if_pos ha]
  · rw [if_neg ha, List.any_append]
    have : (a == c) = false := by
      simp [beq_eq_false_iff_ne]
      exact fun hc => h hc.symm
    simp [this]

theorem any_filter_excl_self (l : List String) (x : String) :
    (l.filter (fun o => !(o == x))).any (fun o => o == x) = false := by
  cases h : (l.filter (fun o => !(o == x))).any (fun o => o == x)
  · rfl
  · exfalso
    have := (any_eq_ocount_pos _ _).mp h
    rw [ocount_filter_excl, if_pos rfl] at this
    omega

theorem any_filter_excl_other (l : List String) (x c : String) (h : c ≠ x) :
    (l.filter (fun o => !(o == x))).any (fun o => o == c) = l.any (fun o => o == c) := by
  cases hr : l.any (fun o => o == c)
  · cases hl : (l.filter (fun o => !(o == x))).any (fun o => o == c)
    · rfl
    · exfalso
      have hpos := (any_eq_ocount_pos _ _).mp hl
      rw [ocount_filter_excl, if_neg h] at hpos
      have := (any_eq_ocount_pos l c).mpr hpos
      rw [hr] at this
      cases this
  · have hpos := (any_eq_ocount_pos l c).mp hr
    apply (any_eq_ocount_pos _ _).mpr
    rw [ocount_filter_excl, if_neg h]
    exact hpos

theorem any_gc_old (l : List String) (oldA : String) (ps : List NaturalPerson)
    (es : List LegalEntity) (ds : List RegistrationDoc) :
    (gcOwners l oldA ps es ds).any (fun o => o == oldA)
      = (usedAddrT ps es ds oldA && l.any (fun o => o == oldA)) := by
  rw [gcOwners_eq]
  by_cases hu : usedAddrT ps es ds oldA = true
  · rw [if_pos hu, hu, Bool.true_and]
  · rw [if_neg hu]
    have hu' : usedAddrT ps es ds oldA = false := by
      cases hb : usedAddrT ps es ds oldA
      · rfl
      · exact absurd hb hu
    rw [hu', Bool.false_and]
    exact any_filter_excl_self l oldA

theorem any_gc_other (l : List String) (oldA c : String) (ps : List NaturalPerson)
    (es : List LegalEntity) (ds : List RegistrationDoc) (h : c ≠ oldA) :
    (gcOwners l oldA ps es ds).any (fun o => o == c) = l.any (fun o => o == c) := by
  rw [gcOwners_eq]
  by_cases hu : usedAddrT ps es ds oldA = true
  · rw [if_pos hu]
  · rw [if_neg hu]
    exact any_filter_excl_other l oldA c h

/-- Owner rows after a full find-or-create + garbage-collection step: the
new address always has a row; the old address has a row exactly when the
post-state tables still reference it. -/
theorem gc_ensure_rows (db : DB) (oldA newA : String) (ps : List NaturalPerson)
    (es : List LegalEntity) (ds : List RegistrationDoc)
    (hInv : OwnerInv db)
    (holdPre : usedAddr db oldA = true)
    (hnewPost : usedAddrT ps es ds newA = true) :
    (gcOwners (ensureOwnerRow db.owners newA) oldA ps es ds).any (fun o => o == newA)
        = true ∧
    (gcOwners (ensureOwnerRow db.owners newA) oldA ps es ds).any (fun o => o == oldA)
        = usedAddrT ps es ds oldA := by
  have hanyPre : db.owners.any (fun o => o == oldA) = true := by
    rw [any_eq_ocount_pos, hInv oldA, holdPre]
    simp
  have hanyE : (ensureOwnerRow db.owners newA).any (fun o => o == oldA) = true := by
    by_cases h : oldA = newA
    · rw [h]; exact any_ensure_self _ _
    · rw [any_ensure_other _ _ _ h]; exact hanyPre
  constructor
  · by_cases h : newA = oldA
    · subst h
      rw [any_gc_old, hnewPost, hanyE]
      rfl
    · rw [any_gc_other _ _ _ _ _ _ h]
      exact any_ensure_self _ _
  · rw [any_gc_old, hanyE, Bool.and_true]

/-! ## Claim C2 -/

theorem updateNPResult_rows (db : DB) (passport : String) (b : NPPutBody)
    (np : NaturalPerson)
    (hInv : OwnerInv db)
    (hfind : db.naturalPersons.find? (fun p => p.passportData == passport) = some np) :
    (updateNPResult db passport b np).owners.any (fun o => o == b.address) = true ∧
    (updateNPResult db passport b np).owners.any (fun o => o == np.address)
      = usedAddr (updateNPResult db passport b np) np.address := by
  have hmem : np ∈ db.naturalPersons := List.mem_of_find?_eq_some hfind
  have hkey : np.passportData = passport := by
    have := List.find?_some hfind
    simpa [beq_iff_eq] using this
  have hold : usedAddr db np.address = true := by
    unfold usedAddr usedAddrT
    have h1 : db.naturalPersons.any (fun p => p.address == np.address) = true :=
      List.any_eq_true.mpr ⟨np, hmem, by simp⟩
    rw [h1]
    simp
  have hnew : usedAddrT
      (db.naturalPersons.map (fun p =>
        if p.passportData == passport then applyNPPut b p else p))
      db.legalEntities
      (if 0 < (db.registrationDocs.filter (fun d => d.documentOwner == passport)).length then
          db.registrationDocs.map (fun d =>
            if d.documentOwner == passport then { d with address := b.address } else d)
        else db.registrationDocs)
      b.address = true := by
    unfold usedAddrT
    have h1 : (db.naturalPersons.map (fun p =>
        if p.passportData == passport then applyNPPut b p else p)).any
        (fun p => p.address == b.address) = true := by
      apply List.any_eq_true.mpr
      refine ⟨applyNPPut b np, ?_, by simp [applyNPPut]⟩
      have heq : (fun p => if p.passportData == passport then applyNPPut b p else p) np
          = applyNPPut b np := by simp [hkey]
      exact heq ▸ List.mem_map_of_mem _ hmem
    rw [h1]
    simp
  constructor
  · simp only [updateNPResult]
    exact (gc_ensure_rows db np.address b.address _ _ _ hInv hold hnew).1
  · simp only [updateNPResult, usedAddr]
    exact (gc_ensure_rows db np.address b.address _ _ _ hInv hold hnew).2

theorem patchNPResult_rows (db : DB) (passport : String) (b : NPPatchBody)
    (np : NaturalPerson) (newA : String) (hb : b.address = some newA)
    (hInv : OwnerInv db)
    (hfind : db.naturalPersons.find? (fun p => p.passportData == passport) = some np) :
    (patchNPResult db passport b np).owners.any (fun o => o == newA) = true ∧
    (patchNPResult db passport b np).owners.any (fun o => o == np.address)
      = usedAddr (patchNPResult db passport b np) np.address := by
  have hmem : np ∈ db.naturalPersons := List.mem_of_find?_eq_some hfind
  have hkey : np.passportData = passport := by
    have := List.find?_some hfind
    simpa [beq_iff_eq] using this
  have hold : usedAddr db np.address = true := by
    unfold usedAddr usedAddrT
    have h1 : db.naturalPersons.any (fun p => p.address == np.address) = true :=
      List.any_eq_true.mpr ⟨np, hmem, by simp⟩
    rw [h1]
    simp
  have hnew : usedAddrT
      (db.naturalPersons.map (fun p =>
        if p.passportData == passport then applyNPPatch b p else p))
      db.legalEntities
      (if 0 < (db.registrationDocs.filter (fun d =>
            d.address == np.address && d.documentOwner == passport)).length then
          db.registrationDocs.map (fun d =>
            if d.address == np.address && d.documentOwner == passport then
              { d with address := newA }
            else d)
        else db.registrationDocs)
      newA = true := by
    unfold usedAddrT
    have h1 : (db.naturalPersons.map (fun p =>
        if p.passportData == passport then applyNPPatch b p else p)).any
        (fun p => p.address == newA) = true := by
      apply List.any_eq_true.mpr
      refine ⟨applyNPPatch b np, ?_, by simp [applyNPPatch, hb]⟩
      have heq : (fun p => if p.passportData == passport then applyNPPatch b p else p) np
          = applyNPPatch b np := by simp [hkey]
      exact heq ▸ List.mem_map_of_mem _ hmem
    rw [h1]
    simp
  constructor
  · simp only [patchNPResult, hb]
    exact (gc_ensure_rows db np.address newA _ _ _ hInv hold hnew).1
  · simp only [patchNPResult, hb, usedAddr]
    exact (gc_ensure_rows db np.address newA _ _ _ hInv hold hnew).2

theorem updateLEResult_rows (db : DB) (taxNumber : String) (b : LEPutBody) (le : LegalEntity)
    (hInv : OwnerInv db)
    (hfind : db.legalEntities.find? (fun e => e.taxNumber == taxNumber) = some le) :
    (leSafeChange db taxNumber b.address →
      (updateLEResult db taxNumber b le).owners.any (fun o => o == b.address) = true) ∧
    (updateLEResult db taxNumber b le).owners.any (fun o => o == le.address)
      = usedAddr (updateLEResult db taxNumber b le) le.address := by
  have hmem : le ∈ db.legalEntities := List.mem_of_find?_eq_some hfind
  have hkey : le.taxNumber = taxNumber := by
    have := List.find?_some hfind
    simpa [beq_iff_eq] using this
  have hold : usedAddr db le.address = true := by
    unfold usedAddr usedAddrT
    have h1 : db.legalEntities.any (fun e => e.address == le.address) = true :=
      List.any_eq_true.mpr ⟨le, hmem, by simp⟩
    rw [h1]
    simp
  have hanyPre : db.owners.any (fun o => o == le.address) = true := by
    rw [any_eq_ocount_pos, hInv le.address, hold]
    simp
  have hnew : usedAddrT db.naturalPersons
      (db.legalEntities.map (fun e =>
        if e.taxNumber == taxNumber then applyLEPut b e else e))
      (if 0 < (db.registrationDocs.filter (fun d =>
            d.address == le.address && d.documentOwner == taxNumber)).length then
          db.registrationDocs.map (fun d =>
            if d.address == le.address && d.documentOwner == taxNumber then
              { d with address := b.address }
            else d)
        else db.registrationDocs)
      b.address = true := by
    unfold usedAddrT
    have h1 : (db.legalEntities.map (fun e =>
        if e.taxNumber == taxNumber then applyLEPut b e else e)).any
        (fun e => e.address == b.address) = true := by
      apply List.any_eq_true.mpr
      refine ⟨applyLEPut b le, ?_, by simp [applyLEPut]⟩
      have heq : (fun e => if e.taxNumber == taxNumber then applyLEPut b e else e) le
          = applyLEPut b le := by simp [hkey]
      exact heq ▸ List.mem_map_of_mem _ hmem
    rw [h1]
    simp
  constructor
  · intro hsafe
    have hown1 : (if 0 < (db.registrationDocs.filter (fun d =>
          d.address == le.address && d.documentOwner == taxNumber)).length then
        ensureOwnerRow db.owners b.address else db.owners)
          = ensureOwnerRow db.owners b.address := by
      by_cases hg : 0 < (db.registrationDocs.filter (fun d =>
          d.address == le.address && d.documentOwner == taxNumber)).length
      · rw [if_pos hg]
      · rw [if_neg hg]
        rcases hsafe le hmem hkey with h | h
        · exact absurd h hg
        · have hany : db.owners.any (fun o => o == b.address) = true := by
            rw [any_eq_ocount_pos, hInv b.address, h]
            simp
          unfold ensureOwnerRow
          rw [if_pos hany]
    simp only [updateLEResult]
    rw [hown1]
    exact (gc_ensure_rows db le.address b.address _ _ _ hInv hold hnew).1
  · simp only [updateLEResult, usedAddr]
    have hany1 : (if 0 < (db.registrationDocs.filter (fun d =>
          d.address == le.address && d.documentOwner == taxNumber)).length then
        ensureOwnerRow db.owners b.address else db.owners).any
          (fun o => o == le.address) = true := by
      by_cases hg : 0 < (db.registrationDocs.filter (fun d =>
          d.address == le.address && d.documentOwner == taxNumber)).length
      · rw [if_pos hg]
        by_cases hno : le.address = b.address
        · rw [hno]
          exact any_ensure_self _ _
        · rw [any_ensure_other _ _ _ hno]
          exact hanyPre
      · rw [if_neg hg]
        exact hanyPre
    rw [any_gc_old, hany1, Bool.and_true]

theorem patchLEResult_rows (db : DB) (taxNumber : String) (b : LEPatchBody) (le : LegalEntity)
    (newA : String) (hb : b.address = some newA)
    (hInv : OwnerInv db)
    (hfind : db.legalEntities.find? (fun e => e.taxNumber == taxNumber) = some le) :
    (leSafeChange db taxNumber newA →
      (patchLEResult db taxNumber b le).owners.any (fun o => o == newA) = true) ∧
    (patchLEResult db taxNumber b le).owners.any (fun o => o == le.address)
      = usedAddr (patchLEResult db taxNumber b le) le.address := by
  have hmem : le ∈ db.legalEntities := List.mem_of_find?_eq_some hfind
  have hkey : le.taxNumber = taxNumber := by
    have := List.find?_some hfind
    simpa [beq_iff_eq] using this
  have hold : usedAddr db le.address = true := by
    unfold usedAddr usedAddrT
    have h1 : db.legalEntities.any (fun e => e.address == le.address) = true :=
      List.any_eq_true.mpr ⟨le, hmem, by simp⟩
    rw [h1]
    simp
  have hanyPre : db.owners.any (fun o => o == le.address) = true := by
    rw [any_eq_ocount_pos, hInv le.address, hold]
    simp
  have hnew : usedAddrT db.naturalPersons
      (db.legalEntities.map (fun e =>
        if e.taxNumber == taxNumber then { e with address := newA } else e))
      (if 0 < (db.registrationDocs.filter (fun d =>
            d.address == le.address && d.documentOwner == taxNumber)).length then
          db.registrationDocs.map (fun d =>
            if d.address == le.address && d.documentOwner == taxNumber then
              { d with address := newA }
            else d)
        else db.registrationDocs)
      newA = true := by
    unfold usedAddrT
    have h1 : (db.legalEntities.map (fun e =>
        if e.taxNumber == taxNumber then { e with address := newA } else e)).any
        (fun e => e.address == newA) = true := by
      apply List.any_eq_true.mpr
      refine ⟨{ le with address := newA }, ?_, by simp⟩
      have heq : (fun e => if e.taxNumber == taxNumber then { e with address := newA } else e) le
          = { le with address := newA } := by simp [hkey]
      exact heq ▸ List.mem_map_of_mem _ hmem
    rw [h1]
    simp
  constructor
  · intro hsafe
    have hown1 : (if 0 < (db.registrationDocs.filter (fun d =>
          d.address == le.address && d.documentOwner == taxNumber)).length then
        ensureOwnerRow db.owners newA else db.owners) = ensureOwnerRow db.owners newA := by
      by_cases hg : 0 < (db.registrationDocs.filter (fun d =>
          d.address == le.address && d.documentOwner == taxNumber)).length
      · rw [if_pos hg]
      · rw [if_neg hg]
        rcases hsafe le hmem hkey with h | h
        · exact absurd h hg
        · have hany : db.owners.any (fun o => o == newA) = true := by
            rw [any_eq_ocount_pos, hInv newA, h]
            simp
          unfold ensureOwnerRow
          rw [if_pos hany]
    simp only [patchLEResult, hb]
    rw [hown1]
    exact (gc_ensure_rows db le.address newA _ _ _ hInv hold hnew).1
  · simp only [patchLEResult, hb, usedAddr]
    have hany1 : (if 0 < (db.registrationDocs.filter (fun d =>
          d.address == le.address && d.documentOwner == taxNumber)).length then
        ensureOwnerRow db.owners newA else db.owners).any
          (fun o => o == le.address) = true := by
      by_cases hg : 0 < (db.registrationDocs.filter (fun d =>
          d.address == le.address && d.documentOwner == taxNumber)).length
      · rw [if_pos hg]
        by_cases hno : le.address = newA
        · rw [hno]
          exact any_ensure_self _ _
        · rw [any_ensure_other _ _ _ hno]
          exact hanyPre
      · rw [if_neg hg]
        exact hanyPre
    rw [any_gc_old, hany1, Bool.and_true]

/-- C2 (amended).  After every successful address change: for the
natural-person handlers an Owner row for the new address always exists; for
the legal-entity handlers it exists provided the entity owned a document at
its old address or the new address was already referenced (without that
condition no row is created — `claim2_owner_rows_counterexample`); and in
all four handlers the Owner row for the old address is present exactly when
some person, entity or document still references the old address, so a
second person still living at the old address keeps its Owner row. -/
theorem claim2_owner_rows :
    (∀ (db db' : DB) (passport : String) (b : NPPutBody) (np : NaturalPerson),
        OwnerInv db →
        db.naturalPersons.find? (fun p => p.passportData == passport) = some np →
        updateNaturalPerson db passport b = .ok db' →
        db'.owners.any (fun o => o == b.address) = true ∧
        db'.owners.any (fun o => o == np.address) = usedAddr db' np.address) ∧
    (∀ (db db' : DB) (passport : String) (b : NPPatchBody) (np : NaturalPerson)
        (newA : String),
        OwnerInv db →
        db.naturalPersons.find? (fun p => p.passportData == passport) = some np →
        b.address = some newA →
        patchNaturalPerson db passport b = .ok db' →
        db'.owners.any (fun o => o == newA) = true ∧
        db'.owners.any (fun o => o == np.address) = usedAddr db' np.address) ∧
    (∀ (db db' : DB) (taxNumber : String) (b : LEPutBody) (le : LegalEntity),
        OwnerInv db →
        db.legalEntities.find? (fun e => e.taxNumber == taxNumber) = some le →
        updateLegalEntity db taxNumber b = .ok db' →
        (leSafeChange db taxNumber b.address →
          db'.owners.any (fun o => o == b.address) = true) ∧
        db'.owners.any (fun o => o == le.address) = usedAddr db' le.address) ∧
    (∀ (db db' : DB) (taxNumber : String) (b : LEPatchBody) (le : LegalEntity)
        (newA : String),
        OwnerInv db →
        db.legalEntities.find? (fun e => e.taxNumber == taxNumber) = some le →
        b.address = some newA →
        patchLegalEntity db taxNumber b = .ok db' →
        (leSafeChange db taxNumber newA →
          db'.owners.any (fun o => o == newA) = true) ∧
        db'.owners.any (fun o => o == le.address) = usedAddr db' le.address) := by
  refine ⟨?_, ?_, ?_, ?_⟩
  · intro db db' passport b np hInv hfind h
    obtain ⟨hval, np2, hfind2, rfl⟩ := updateNaturalPerson_ok_elim db passport b db' h
    rw [hfind] at hfind2
    cases hfind2
    exact updateNPResult_rows db passport b np hInv hfind
  · intro db db' passport b np newA hInv hfind hb h
    obtain ⟨hval, np2, hfind2, rfl⟩ := patchNaturalPerson_ok_elim db passport b db' h
    rw [hfind] at hfind2
    cases hfind2
    exact patchNPResult_rows db passport b np newA hb hInv hfind
  · intro db db' taxNumber b le hInv hfind h
    obtain ⟨hval, le2, hfind2, rfl⟩ := updateLegalEntity_ok_elim db taxNumber b db' h
    rw [hfind] at hfind2
    cases hfind2
    exact updateLEResult_rows db taxNumber b le hInv hfind
  · intro db db' taxNumber b le newA hInv hfind hb h
    obtain ⟨hval, le2, hfind2, rfl⟩ := patchLegalEntity_ok_elim db taxNumber b db' h
    rw [hfind] at hfind2
    cases hfind2
    exact patchLEResult_rows db taxNumber b le newA hb hInv hfind

/-- Store for the C2 witness: two persons share one address (the spec's
shared-address scenario). -/
def dbW2 : DB :=
  { owners := ["Shared Street 10"],
    naturalPersons := [{ passportData := "1111 111111", lastName := "Иванов",
                         firstName := "Иван", patronymic := "Иванович",
                         address := "Shared Street 10" },
                       { passportData := "2222 222222", lastName := "Петров",
                         firstName := "Пётр", patronymic := "Петрович",
                         address := "Shared Street 10" }],
    legalEntities := [], registrationDocs := [], transportVehicles := [],
    employees := [], users := [] }

/-- Patch moving only the first C2 witness person. -/
def bW2 : NPPatchBody :=
  { address := some "Novaya Street 3", lastName := none, firstName := none,
    patronymic := none }

/-- Store after the C2 witness patch: Owner("Shared Street 10") survives
because the second person still lives there. -/
def dbW2post : DB :=
  { dbW2 with owners := ["Shared Street 10", "Novaya Street 3"],
              naturalPersons := [{ passportData := "1111 111111", lastName := "Иванов",
                                   firstName := "Иван", patronymic := "Иванович",
                                   address := "Novaya Street 3" },
                                 { passportData := "2222 222222", lastName := "Петров",
                                   firstName := "Пётр", patronymic := "Петрович",
                                   address := "Shared Street 10" }] }

/-- Witness for C2: in the shared-address scenario the new address gets an
Owner row and the old address keeps its row (it is still referenced). -/
theorem claim2_owner_rows_witness :
    dbW2post.owners.any (fun o => o == "Novaya Street 3") = true ∧
    dbW2post.owners.any (fun o => o == "Shared Street 10")
      = usedAddr dbW2post "Shared Street 10" :=
  claim2_owner_rows.2.1 dbW2 dbW2post "1111 111111" bW2
    { passportData := "1111 111111", lastName := "Иванов", firstName := "Иван",
      patronymic := "Иванович", address := "Shared Street 10" }
    "Novaya Street 3" (by decide) rfl rfl rfl

/-- Counterexample to C2 as stated: after a successful `updateLegalEntity`
of an entity owning no documents, no Owner row exists for the new address
"Arbat Street 22". -/
theorem claim2_owner_rows_counterexample :
    OwnerInv dbX1 ∧ updateLegalEntity dbX1 "1234567890" bX1 = .ok dbX1post ∧
      dbX1post.owners.any (fun o => o == "Arbat Street 22") = false :=
  ⟨by decide, rfl, by decide⟩

/-! ## Claim C3 -/

theorem filter_empty_of_not_pos {α : Type} (p : α → Bool) (l : List α)
    (hg : ¬ 0 < (l.filter p).length) : ∀ d ∈ l, p d = false := by
  intro d hd
  cases h : p d
  · rfl
  · exfalso
    apply hg
    have : d ∈ l.filter p := List.mem_filter.mpr ⟨hd, h⟩
    exact List.length_pos.mpr (fun hnil => by rw [hnil] at this; cases this)

theorem updateNPResult_docs (db : DB) (passport : String) (b : NPPutBody)
    (np : NaturalPerson) :
    (updateNPResult db passport b np).registrationDocs
      = db.registrationDocs.map (fun d =>
          if d.documentOwner == passport then { d with address := b.address } else d) := by
  simp only [updateNPResult]
  by_cases hg : 0 < (db.registrationDocs.filter (fun d => d.documentOwner == passport)).length
  · rw [if_pos hg]
  · rw [if_neg hg]
    have hall := filter_empty_of_not_pos _ _ hg
    calc db.registrationDocs
        = db.registrationDocs.map id := (List.map_id _).symm
      _ = _ := List.map_congr_left (fun d hd => by rw [hall d hd]; rfl)

theorem patchNPResult_docs (db : DB) (passport : String) (b : NPPatchBody)
    (np : NaturalPerson) (newA : String) (hb : b.address = some newA) :
    (patchNPResult db passport b np).registrationDocs
      = db.registrationDocs.map (fun d =>
          if d.address == np.address && d.documentOwner == passport then
            { d with address := newA }
          else d) := by
  simp only [patchNPResult, hb]
  by_cases hg : 0 < (db.registrationDocs.filter (fun d =>
      d.address == np.address && d.documentOwner == passport)).length
  · rw [if_pos hg]
  · rw [if_neg hg]
    have hall := filter_empty_of_not_pos _ _ hg
    calc db.registrationDocs
        = db.registrationDocs.map id := (List.map_id _).symm
      _ = _ := List.map_congr_left (fun d hd => by rw [hall d hd]; rfl)

theorem updateLEResult_docs (db : DB) (taxNumber : String) (b : LEPutBody)
    (le : LegalEntity) :
    (updateLEResult db taxNumber b le).registrationDocs
      = db.registrationDocs.map (fun d =>
          if d.address == le.address && d.documentOwner == taxNumber then
            { d with address := b.address }
          else d) := by
  simp only [updateLEResult]
  by_cases hg : 0 < (db.registrationDocs.filter (fun d =>
      d.address == le.address && d.documentOwner == taxNumber)).length
  · rw [if_pos hg]
  · rw [if_neg hg]
    have hall := filter_empty_of_not_pos _ _ hg
    calc db.registrationDocs
        = db.registrationDocs.map id := (List.map_id _).symm
      _ = _ := List.map_congr_left (fun d hd => by rw [hall d hd]; rfl)

theorem patchLEResult_docs (db : DB) (taxNumber : String) (b : LEPatchBody)
    (le : LegalEntity) (newA : String) (hb : b.address = some newA) :
    (patchLEResult db taxNumber b le).registrationDocs
      = db.registrationDocs.map (fun d =>
          if d.address == le.address && d.documentOwner == taxNumber then
            { d with address := newA }
          else d) := by
  simp only [patchLEResult, hb]
  by_cases hg : 0 < (db.registrationDocs.filter (fun d =>
      d.address == le.address && d.documentOwner == taxNumber)).length
  · rw [if_pos hg]
  · rw [if_neg hg]
    have hall := filter_empty_of_not_pos _ _ hg
    calc db.registrationDocs
        = db.registrationDocs.map id := (List.map_id _).symm
      _ = _ := List.map_congr_left (fun d hd => by rw [hall d hd]; rfl)

/-- C3 (amended).  On every successful address change: `updateNaturalPerson`
rewrites exactly the documents whose `documentOwner` is the party's key
(including one whose stored address differed from the old address), while
`patchNaturalPerson`, `updateLegalEntity` and `patchLegalEntity` rewrite
exactly the documents whose `documentOwner` is the key AND whose address
equals the old address (a diverged document is left alone —
`claim3_document_rewrite_counterexample`).  In all four, a document of any
other owner is never modified, even when its address equals the old
address, as the pointwise rewrite rules show. -/
theorem claim3_document_rewrite :
    (∀ (db db' : DB) (passport : String) (b : NPPutBody) (np : NaturalPerson),
        db.naturalPersons.find? (fun p => p.passportData == passport) = some np →
        updateNaturalPerson db passport b = .ok db' →
        db'.registrationDocs = db.registrationDocs.map (fun d =>
          if d.documentOwner == passport then { d with address := b.address } else d)) ∧
    (∀ (db db' : DB) (passport : String) (b : NPPatchBody) (np : NaturalPerson)
        (newA : String),
        db.naturalPersons.find? (fun p => p.passportData == passport) = some np →
        b.address = some newA →
        patchNaturalPerson db passport b = .ok db' →
        db'.registrationDocs = db.registrationDocs.map (fun d =>
          if d.address == np.address && d.documentOwner == passport then
            { d with address := newA }
          else d)) ∧
    (∀ (db db' : DB) (taxNumber : String) (b : LEPutBody) (le : LegalEntity),
        db.legalEntities.find? (fun e => e.taxNumber == taxNumber) = some le →
        updateLegalEntity db taxNumber b = .ok db' →
        db'.registrationDocs = db.registrationDocs.map (fun d =>
          if d.address == le.address && d.documentOwner == taxNumber then
            { d with address := b.address }
          else d)) ∧
    (∀ (db db' : DB) (taxNumber : String) (b : LEPatchBody) (le : LegalEntity)
        (newA : String),
        db.legalEntities.find? (fun e => e.taxNumber == taxNumber) = some le →
        b.address = some newA →
        patchLegalEntity db taxNumber b = .ok db' →
        db'.registrationDocs = db.registrationDocs.map (fun d =>
          if d.address == le.address && d.documentOwner == taxNumber then
            { d with address := newA }
          else d)) := by
  refine ⟨?_, ?_, ?_, ?_⟩
  · intro db db' passport b np hfind h
    obtain ⟨hval, np2, hfind2, rfl⟩ := updateNaturalPerson_ok_elim db passport b db' h
    rw [hfind] at hfind2
    cases hfind2
    exact updateNPResult_docs db passport b np
  · intro db db' passport b np newA hfind hb h
    obtain ⟨hval, np2, hfind2, rfl⟩ := patchNaturalPerson_ok_elim db passport b db' h
    rw [hfind] at hfind2
    cases hfind2
    exact patchNPResult_docs db passport b np newA hb
  · intro db db' taxNumber b le hfind h
    obtain ⟨hval, le2, hfind2, rfl⟩ := updateLegalEntity_ok_elim db taxNumber b db' h
    rw [hfind] at hfind2
    cases hfind2
    exact updateLEResult_docs db taxNumber b le
  · intro db db' taxNumber b le newA hfind hb h
    obtain ⟨hval, le2, hfind2, rfl⟩ := patchLegalEntity_ok_elim db taxNumber b db' h
    rw [hfind] at hfind2
    cases hfind2
    exact patchLEResult_docs db taxNumber b le newA hb

/-- Store for the C3 witness: a person with a registration document whose
stored address diverged from the person's address. -/
def dbW3 : DB :=
  { owners := ["Start Street 20", "Away Street 33"],
    naturalPersons := [{ passportData := "4444 444444", lastName := "Иванов",
                         firstName := "Иван", patronymic := "Иванович",
                         address := "Start Street 20" }],
    legalEntities := [],
    registrationDocs := [{ registrationNumber := "R100", address := "Away Street 33",
                           documentOwner := "4444 444444", vin := "ABCDEFGH123456789" }],
    transportVehicles := [], employees := [], users := [] }

/-- PUT body for the C3 witness. -/
def bW3 : NPPutBody :=
  { address := "Target Street 12", lastName := "Иванов", firstName := "Иван",
    patronymic := "Иванович" }

/-- Store after the C3 witness run: the diverged document was rewritten too
(the PUT handler filters on `documentOwner` only). -/
def dbW3post : DB :=
  { dbW3 with owners := ["Away Street 33", "Target Street 12"],
              naturalPersons := [{ passportData := "4444 444444", lastName := "Иванов",
                                   firstName := "Иван", patronymic := "Иванович",
                                   address := "Target Street 12" }],
              registrationDocs := [{ registrationNumber := "R100",
                                     address := "Target Street 12",
                                     documentOwner := "4444 444444",
                                     vin := "ABCDEFGH123456789" }] }

/-- Witness for C3: a concrete `updateNaturalPerson` run whose document
table equals the claimed pointwise rewrite. -/
theorem claim3_document_rewrite_witness :
    dbW3post.registrationDocs = dbW3.registrationDocs.map (fun d =>
      if d.documentOwner == "4444 444444" then { d with address := "Target Street 12" }
      else d) :=
  claim3_document_rewrite.1 dbW3 dbW3post "4444 444444" bW3
    { passportData := "4444 444444", lastName := "Иванов", firstName := "Иван",
      patronymic := "Иванович", address := "Start Street 20" } rfl rfl

/-- Store for the C3 counterexample: the person's only document sits at a
diverged address. -/
def dbX3 : DB :=
  { owners := ["Home Street 11", "Old Docs Street 9"],
    naturalPersons := [{ passportData := "3333 333333", lastName := "Иванов",
                         firstName := "Иван", patronymic := "Иванович",
                         address := "Home Street 11" }],
    legalEntities := [],
    registrationDocs := [{ registrationNumber := "R200", address := "Old Docs Street 9",
                           documentOwner := "3333 333333", vin := "ABCDEFGH123456789" }],
    transportVehicles := [], employees := [], users := [] }

/-- Patch body for the C3 counterexample. -/
def bX3 : NPPatchBody :=
  { address := some "Fresh Street 77", lastName := none, firstName := none,
    patronymic := none }

/-- Store after the C3 counterexample run: the diverged document kept its
old address. -/
def dbX3post : DB :=
  { dbX3 with owners := ["Old Docs Street 9", "Fresh Street 77"],
              naturalPersons := [{ passportData := "3333 333333", lastName := "Иванов",
                                   firstName := "Иван", patronymic := "Иванович",
                                   address := "Fresh Street 77" }] }

/-- Counterexample to C3 as stated: after a successful `patchNaturalPerson`
address change, a document whose `documentOwner` is the party still carries
an address different from the new one — not every document of the party was
rewritten. -/
theorem claim3_document_rewrite_counterexample :
    OwnerInv dbX3 ∧ patchNaturalPerson dbX3 "3333 333333" bX3 = .ok dbX3post ∧
      dbX3post.registrationDocs.any
        (fun d => d.documentOwner == "3333 333333" && !(d.address == "Fresh Street 77"))
        = true :=
  ⟨by decide, rfl, by decide⟩

/-! ## Claim C4 -/

theorem ensure_id_of_used (db : DB) (a : String) (hInv : OwnerInv db)
    (hused : usedAddr db a = true) :
    ensureOwnerRow db.owners a = db.owners := by
  unfold ensureOwnerRow
  rw [if_pos (by rw [any_eq_ocount_pos, hInv a, hused]; simp)]

theorem gc_id_of_used (l : List String) (oldA : String) (ps : List NaturalPerson)
    (es : List LegalEntity) (ds : List RegistrationDoc)
    (h : usedAddrT ps es ds oldA = true) :
    gcOwners l oldA ps es ds = l := by
  rw [gcOwners_eq, if_pos h]

theorem patchNPResult_none_frame (db : DB) (passport : String) (b : NPPatchBody)
    (np : NaturalPerson) (hb : b.address = none) :
    (patchNPResult db passport b np).owners = db.owners ∧
    (patchNPResult db passport b np).registrationDocs = db.registrationDocs ∧
    (patchNPResult db passport b np).legalEntities = db.legalEntities ∧
    (patchNPResult db passport b np).naturalPersons
      = db.naturalPersons.map (fun p =>
          if p.passportData == passport then applyNPPatch b p else p) := by
  refine ⟨?_, ?_, ?_, ?_⟩ <;> simp [patchNPResult, hb]

theorem patchLEResult_none_frame (db : DB) (taxNumber : String) (b : LEPatchBody)
    (le : LegalEntity) (hb : b.address = none) :
    (patchLEResult db taxNumber b le).owners = db.owners ∧
    (patchLEResult db taxNumber b le).registrationDocs = db.registrationDocs ∧
    (patchLEResult db taxNumber b le).naturalPersons = db.naturalPersons ∧
    (patchLEResult db taxNumber b le).legalEntities
      = db.legalEntities.map (fun e =>
          if e.taxNumber == taxNumber then
            { e with companyName := b.companyName.getD e.companyName }
          else e) := by
  refine ⟨?_, ?_, ?_, ?_⟩ <;> simp [patchLEResult, hb]

theorem updateNPResult_same_addr_frame (db : DB) (passport : String) (b : NPPutBody)
    (np : NaturalPerson)
    (hInv : OwnerInv db)
    (hfind : db.naturalPersons.find? (fun p => p.passportData == passport) = some np)
    (hbA : b.address = np.address) :
    (updateNPResult db passport b np).owners = db.owners ∧
    (updateNPResult db passport b np).legalEntities = db.legalEntities ∧
    (updateNPResult db passport b np).naturalPersons
      = db.naturalPersons.map (fun p =>
          if p.passportData == passport then applyNPPut b p else p) ∧
    (npDocsAligned db passport →
      (updateNPResult db passport b np).registrationDocs = db.registrationDocs) := by
  have hmem : np ∈ db.naturalPersons := List.mem_of_find?_eq_some hfind
  have hkey : np.passportData = passport := by
    have := List.find?_some hfind
    simpa [beq_iff_eq] using this
  have hused : usedAddr db np.address = true := by
    unfold usedAddr usedAddrT
    have h1 : db.naturalPersons.any (fun p => p.address == np.address) = true :=
      List.any_eq_true.mpr ⟨np, hmem, by simp⟩
    rw [h1]
    simp
  refine ⟨?_, rfl, rfl, ?_⟩
  · simp only [updateNPResult]
    rw [hbA, ensure_id_of_used db np.address hInv hused]
    have hpost : usedAddrT
        (db.naturalPersons.map (fun p =>
          if p.passportData == passport then applyNPPut b p else p))
        db.legalEntities
        (if 0 < (db.registrationDocs.filter (fun d => d.documentOwner == passport)).length then
            db.registrationDocs.map (fun d =>
              if d.documentOwner == passport then { d with address := np.address } else d)
          else db.registrationDocs)
        np.address = true := by
      unfold usedAddrT
      have h1 : (db.naturalPersons.map (fun p =>
          if p.passportData == passport then applyNPPut b p else p)).any
          (fun p => p.address == np.address) = true := by
        apply List.any_eq_true.mpr
        refine ⟨applyNPPut b np, ?_, by simp [applyNPPut, hbA]⟩
        have heq : (fun p => if p.passportData == passport then applyNPPut b p else p) np
            = applyNPPut b np := by simp [hkey]
        exact heq ▸ List.mem_map_of_mem _ hmem
      rw [h1]
      simp
    rw [gc_id_of_used _ _ _ _ _ hpost]
  · intro hAl
    rw [updateNPResult_docs db passport b np]
    calc db.registrationDocs.map (fun d =>
            if d.documentOwner == passport then { d with address := b.address } else d)
        = db.registrationDocs.map id := List.map_congr_left (fun d hd => by
            by_cases hdk : (d.documentOwner == passport) = true
            · have haddr : d.address = np.address :=
                hAl d hd (beq_iff_eq.mp hdk) np hmem hkey
              rw [if_pos hdk, hbA, ← haddr]
              rfl
            · rw [if_neg hdk]
              rfl)
      _ = db.registrationDocs := List.map_id _

theorem updateLEResult_same_addr_frame (db : DB) (taxNumber : String) (b : LEPutBody)
    (le : LegalEntity)
    (hInv : OwnerInv db)
    (hfind : db.legalEntities.find? (fun e => e.taxNumber == taxNumber) = some le)
    (hbA : b.address = le.address) :
    (updateLEResult db taxNumber b le).owners = db.owners ∧
    (updateLEResult db taxNumber b le).registrationDocs = db.registrationDocs ∧
    (updateLEResult db taxNumber b le).naturalPersons = db.naturalPersons ∧
    (updateLEResult db taxNumber b le).legalEntities
      = db.legalEntities.map (fun e =>
          if e.taxNumber == taxNumber then applyLEPut b e else e) := by
  have hmem : le ∈ db.legalEntities := List.mem_of_find?_eq_some hfind
  have hkey : le.taxNumber = taxNumber := by
    have := List.find?_some hfind
    simpa [beq_iff_eq] using this
  have hused : usedAddr db le.address = true := by
    unfold usedAddr usedAddrT
    have h1 : db.legalEntities.any (fun e => e.address == le.address) = true :=
      List.any_eq_true.mpr ⟨le, hmem, by simp⟩
    rw [h1]
    simp
  have hdocs : (updateLEResult db taxNumber b le).registrationDocs = db.registrationDocs := by
    rw [updateLEResult_docs db taxNumber b le]
    calc db.registrationDocs.map (fun d =>
            if d.address == le.address && d.documentOwner == taxNumber then
              { d with address := b.address }
            else d)
        = db.registrationDocs.map id := List.map_congr_left (fun d hd => by
            by_cases hdk : (d.address == le.address && d.documentOwner == taxNumber) = true
            · have haddr : d.address = le.address :=
                beq_iff_eq.mp ((Bool.and_eq_true _ _).mp hdk).1
              rw [if_pos hdk, hbA, ← haddr]
              rfl
            · rw [if_neg hdk]
              rfl)
      _ = db.registrationDocs := List.map_id _
  refine ⟨?_, hdocs, rfl, rfl⟩
  · simp only [updateLEResult]
    have hown1 : (if 0 < (db.registrationDocs.filter (fun d =>
          d.address == le.address && d.documentOwner == taxNumber)).length then
        ensureOwnerRow db.owners b.address else db.owners) = db.owners := by
      by_cases hg : 0 < (db.registrationDocs.filter (fun d =>
          d.address == le.address && d.documentOwner == taxNumber)).length
      · rw [if_pos hg, hbA]
        exact ensure_id_of_used db le.address hInv hused
      · rw [if_neg hg]
    rw [hown1]
    have hpost : usedAddrT db.naturalPersons
        (db.legalEntities.map (fun e =>
          if e.taxNumber == taxNumber then applyLEPut b e else e))
        (if 0 < (db.registrationDocs.filter (fun d =>
              d.address == le.address && d.documentOwner == taxNumber)).length then
            db.registrationDocs.map (fun d =>
              if d.address == le.address && d.documentOwner == taxNumber then
                { d with address := b.address }
              else d)
          else db.registrationDocs)
        le.address = true := by
      unfold usedAddrT
      have h1 : (db.legalEntities.map (fun e =>
          if e.taxNumber == taxNumber then applyLEPut b e else e)).any
          (fun e => e.address == le.address) = true := by
        apply List.any_eq_true.mpr
        refine ⟨applyLEPut b le, ?_, by simp [applyLEPut, hbA]⟩
        have heq : (fun e => if e.taxNumber == taxNumber then applyLEPut b e else e) le
            = applyLEPut b le := by simp [hkey]
        exact heq ▸ List.mem_map_of_mem _ hmem
      rw [h1]
      simp
    rw [gc_id_of_used _ _ _ _ _ hpost]

theorem patchNPResult_same_addr_frame (db : DB) (passport : String) (b : NPPatchBody)
    (np : NaturalPerson) (hb : b.address = some np.address)
    (hInv : OwnerInv db)
    (hfind : db.naturalPersons.find? (fun p => p.passportData == passport) = some np) :
    (patchNPResult db passport b np).owners = db.owners ∧
    (patchNPResult db passport b np).registrationDocs = db.registrationDocs ∧
    (patchNPResult db passport b np).legalEntities = db.legalEntities ∧
    (patchNPResult db passport b np).naturalPersons
      = db.naturalPersons.map (fun p =>
          if p.passportData == passport then applyNPPatch b p else p) := by
  have hmem : np ∈ db.naturalPersons := List.mem_of_find?_eq_some hfind
  have hkey : np.passportData = passport := by
    have := List.find?_some hfind
    simpa [beq_iff_eq] using this
  have hused : usedAddr db np.address = true := by
    unfold usedAddr usedAddrT
    have h1 : db.naturalPersons.any (fun p => p.address == np.address) = true :=
      List.any_eq_true.mpr ⟨np, hmem, by simp⟩
    rw [h1]
    simp
  have hdocs : (patchNPResult db passport b np).registrationDocs = db.registrationDocs := by
    rw [patchNPResult_docs db passport b np np.address hb]
    calc db.registrationDocs.map (fun d =>
            if d.address == np.address && d.documentOwner == passport then
              { d with address := np.address }
            else d)
        = db.registrationDocs.map id := List.map_congr_left (fun d hd => by
            by_cases hdk : (d.address == np.address && d.documentOwner == passport) = true
            · have haddr : d.address = np.address :=
                beq_iff_eq.mp ((Bool.and_eq_true _ _).mp hdk).1
              rw [if_pos hdk, ← haddr]
              rfl
            · rw [if_neg hdk]
              rfl)
      _ = db.registrationDocs := List.map_id _
  refine ⟨?_, hdocs, by simp only [patchNPResult, hb], by simp only [patchNPResult, hb]⟩
  · simp only [patchNPResult, hb]
    rw [ensure_id_of_used db np.address hInv hused]
    have hpost : usedAddrT
        (db.naturalPersons.map (fun p =>
          if p.passportData == passport then applyNPPatch b p else p))
        db.legalEntities
        (if 0 < (db.registrationDocs.filter (fun d =>
              d.address == np.address && d.documentOwner == passport)).length then
            db.registrationDocs.map (fun d =>
              if d.address == np.address && d.documentOwner == passport then
                { d with address := np.address }
              else d)
          else db.registrationDocs)
        np.address = true := by
      unfold usedAddrT
      have h1 : (db.naturalPersons.map (fun p =>
          if p.passportData == passport then applyNPPatch b p else p)).any
          (fun p => p.address == np.address) = true := by
        apply List.any_eq_true.mpr
        refine ⟨applyNPPatch b np, ?_, by simp [applyNPPatch, hb]⟩
        have heq : (fun p => if p.passportData == passport then applyNPPatch b p else p) np
            = applyNPPatch b np := by simp [hkey]
        exact heq ▸ List.mem_map_of_mem _ hmem
      rw [h1]
      simp
    rw [gc_id_of_used _ _ _ _ _ hpost]

theorem patchLEResult_same_addr_frame (db : DB) (taxNumber : String) (b : LEPatchBody)
    (le : LegalEntity) (hb : b.address = some le.address)
    (hInv : OwnerInv db)
    (hfind : db.legalEntities.find? (fun e => e.taxNumber == taxNumber) = some le) :
    (patchLEResult db taxNumber b le).owners = db.owners ∧
    (patchLEResult db taxNumber b le).registrationDocs = db.registrationDocs ∧
    (patchLEResult db taxNumber b le).naturalPersons = db.naturalPersons ∧
    (patchLEResult db taxNumber b le).legalEntities
      = db.legalEntities.map (fun e =>
          if e.taxNumber == taxNumber then { e with address := le.address } else e) := by
  have hmem : le ∈ db.legalEntities := List.mem_of_find?_eq_some hfind
  have hkey : le.taxNumber = taxNumber := by
    have := List.find?_some hfind
    simpa [beq_iff_eq] using this
  have hused : usedAddr db le.address = true := by
    unfold usedAddr usedAddrT
    have h1 : db.legalEntities.any (fun e => e.address == le.address) = true :=
      List.any_eq_true.mpr ⟨le, hmem, by simp⟩
    rw [h1]
    simp
  have hdocs : (patchLEResult db taxNumber b le).registrationDocs = db.registrationDocs := by
    rw [patchLEResult_docs db taxNumber b le le.address hb]
    calc db.registrationDocs.map (fun d =>
            if d.address == le.address && d.documentOwner == taxNumber then
              { d with address := le.address }
            else d)
        = db.registrationDocs.map id := List.map_congr_left (fun d hd => by
            by_cases hdk : (d.address == le.address && d.documentOwner == taxNumber) = true
            · have haddr : d.address = le.address :=
                beq_iff_eq.mp ((Bool.and_eq_true _ _).mp hdk).1
              rw [if_pos hdk, ← haddr]
              rfl
            · rw [if_neg hdk]
              rfl)
      _ = db.registrationDocs := List.map_id _
  refine ⟨?_, hdocs, by simp only [patchLEResult, hb], by simp only [patchLEResult, hb]⟩
  · simp only [patchLEResult, hb]
    have hown1 : (if 0 < (db.registrationDocs.filter (fun d =>
          d.address == le.address && d.documentOwner == taxNumber)).length then
        ensureOwnerRow db.owners le.address else db.owners) = db.owners := by
      by_cases hg : 0 < (db.registrationDocs.filter (fun d =>
          d.address == le.address && d.documentOwner == taxNumber)).length
      · rw [if_pos hg]
        exact ensure_id_of_used db le.address hInv hused
      · rw [if_neg hg]
    rw [hown1]
    have hpost : usedAddrT db.naturalPersons
        (db.legalEntities.map (fun e =>
          if e.taxNumber == taxNumber then { e with address := le.address } else e))
        (if 0 < (db.registrationDocs.filter (fun d =>
              d.address == le.address && d.documentOwner == taxNumber)).length then
            db.registrationDocs.map (fun d =>
              if d.address == le.address && d.documentOwner == taxNumber then
                { d with address := le.address }
              else d)
          else db.registrationDocs)
        le.address = true := by
      unfold usedAddrT
      have h1 : (db.legalEntities.map (fun e =>
          if e.taxNumber == taxNumber then { e with address := le.address } else e)).any
          (fun e => e.address == le.address) = true := by
        apply List.any_eq_true.mpr
        refine ⟨{ le with address := le.address }, ?_, by simp⟩
        have heq : (fun e =>
            if e.taxNumber == taxNumber then { e with address := le.address } else e) le
            = { le with address := le.address } := by simp [hkey]
        exact heq ▸ List.mem_map_of_mem _ hmem
      rw [h1]
      simp
    rw [gc_id_of_used _ _ _ _ _ hpost]

/-- C4 (amended).  For partial updates that omit the address, the Owner and
RegistrationDoc tables are untouched and only the party row's supplied
fields change.  For full or partial updates whose new address equals the
party's current address, the Owner table is unchanged (under the registry
invariant) and so is the RegistrationDoc table — except in
`updateNaturalPerson`, which still rewrites every document owned by the
party to the (unchanged) address, so a document with a diverged stored
address is modified (`claim4_frame_counterexample`); its RegistrationDoc
table is unchanged exactly when no owned document had diverged. -/
theorem claim4_no_address_change_frame :
    (∀ (db db' : DB) (passport : String) (b : NPPatchBody), b.address = none →
        patchNaturalPerson db passport b = .ok db' →
        db'.owners = db.owners ∧ db'.registrationDocs = db.registrationDocs ∧
        db'.legalEntities = db.legalEntities ∧
        db'.naturalPersons = db.naturalPersons.map (fun p =>
          if p.passportData == passport then applyNPPatch b p else p)) ∧
    (∀ (db db' : DB) (taxNumber : String) (b : LEPatchBody), b.address = none →
        patchLegalEntity db taxNumber b = .ok db' →
        db'.owners = db.owners ∧ db'.registrationDocs = db.registrationDocs ∧
        db'.naturalPersons = db.naturalPersons ∧
        db'.legalEntities = db.legalEntities.map (fun e =>
          if e.taxNumber == taxNumber then
            { e with companyName := b.companyName.getD e.companyName }
          else e)) ∧
    (∀ (db db' : DB) (passport : String) (b : NPPutBody) (np : NaturalPerson),
        OwnerInv db →
        db.naturalPersons.find? (fun p => p.passportData == passport) = some np →
        b.address = np.address →
        updateNaturalPerson db passport b = .ok db' →
        db'.owners = db.owners ∧ db'.legalEntities = db.legalEntities ∧
        db'.naturalPersons = db.naturalPersons.map (fun p =>
          if p.passportData == passport then applyNPPut b p else p) ∧
        (npDocsAligned db passport → db'.registrationDocs = db.registrationDocs)) ∧
    (∀ (db db' : DB) (taxNumber : String) (b : LEPutBody) (le : LegalEntity),
        OwnerInv db →
        db.legalEntities.find? (fun e => e.taxNumber == taxNumber) = some le →
        b.address = le.address →
        updateLegalEntity db taxNumber b = .ok db' →
        db'.owners = db.owners ∧ db'.registrationDocs = db.registrationDocs ∧
        db'.naturalPersons = db.naturalPersons ∧
        db'.legalEntities = db.legalEntities.map (fun e =>
          if e.taxNumber == taxNumber then applyLEPut b e else e)) ∧
    (∀ (db db' : DB) (passport : String) (b : NPPatchBody) (np : NaturalPerson),
        OwnerInv db →
        db.naturalPersons.find? (fun p => p.passportData == passport) = some np →
        b.address = some np.address →
        patchNaturalPerson db passport b = .ok db' →
        db'.owners = db.owners ∧ db'.registrationDocs = db.registrationDocs ∧
        db'.legalEntities = db.legalEntities ∧
        db'.naturalPersons = db.naturalPersons.map (fun p =>
          if p.passportData == passport then applyNPPatch b p else p)) ∧
    (∀ (db db' : DB) (taxNumber : String) (b : LEPatchBody) (le : LegalEntity),
        OwnerInv db →
        db.legalEntities.find? (fun e => e.taxNumber == taxNumber) = some le →
        b.address = some le.address →
        patchLegalEntity db taxNumber b = .ok db' →
        db'.owners = db.owners ∧ db'.registrationDocs = db.registrationDocs ∧
        db'.naturalPersons = db.naturalPersons ∧
        db'.legalEntities = db.legalEntities.map (fun e =>
          if e.taxNumber == taxNumber then { e with address := le.address } else e)) := by
  refine ⟨?_, ?_, ?_, ?_, ?_, ?_⟩
  · intro db db' passport b hb h
    obtain ⟨hval, np, hfind, rfl⟩ := patchNaturalPerson_ok_elim db passport b db' h
    exact patchNPResult_none_frame db passport b np hb
  · intro db db' taxNumber b hb h
    obtain ⟨hval, le, hfind, rfl⟩ := patchLegalEntity_ok_elim db taxNumber b db' h
    exact patchLEResult_none_frame db taxNumber b le hb
  · intro db db' passport b np hInv hfind hbA h
    obtain ⟨hval, np2, hfind2, rfl⟩ := updateNaturalPerson_ok_elim db passport b db' h
    rw [hfind] at hfind2
    cases hfind2
    exact updateNPResult_same_addr_frame db passport b np hInv hfind hbA
  · intro db db' taxNumber b le hInv hfind hbA h
    obtain ⟨hval, le2, hfind2, rfl⟩ := updateLegalEntity_ok_elim db taxNumber b db' h
    rw [hfind] at hfind2
    cases hfind2
    exact updateLEResult_same_addr_frame db taxNumber b le hInv hfind hbA
  · intro db db' passport b np hInv hfind hb h
    obtain ⟨hval, np2, hfind2, rfl⟩ := patchNaturalPerson_ok_elim db passport b db' h
    rw [hfind] at hfind2
    cases hfind2
    exact patchNPResult_same_addr_frame db passport b np hb hInv hfind
  · intro db db' taxNumber b le hInv hfind hb h
    obtain ⟨hval, le2, hfind2, rfl⟩ := patchLegalEntity_ok_elim db taxNumber b db' h
    rw [hfind] at hfind2
    cases hfind2
    exact patchLEResult_same_addr_frame db taxNumber b le hb hInv hfind

/-- Store for the C4 witness. -/
def dbW4 : DB :=
  { owners := ["Mira Prospekt 15"],
    naturalPersons := [{ passportData := "6666 666666", lastName := "Иванов",
                         firstName := "Иван", patronymic := "Иванович",
                         address := "Mira Prospekt 15" }],
    legalEntities := [], registrationDocs := [], transportVehicles := [],
    employees := [], users := [] }

/-- Patch body for the C4 witness: updates a name field, omits the address. -/
def bW4 : NPPatchBody :=
  { address := none, lastName := some "Петров", firstName := none, patronymic := none }

/-- Store after the C4 witness patch: only the person's name changed. -/
def dbW4post : DB :=
  { dbW4 with naturalPersons := [{ passportData := "6666 666666", lastName := "Петров",
                                   firstName := "Иван", patronymic := "Иванович",
                                   address := "Mira Prospekt 15" }] }

/-- Witness for C4: a concrete address-omitting patch leaves the Owner,
RegistrationDoc, and LegalEntity tables untouched and rewrites only the
person row's supplied fields. -/
theorem claim4_no_address_change_frame_witness :
    dbW4post.owners = dbW4.owners ∧ dbW4post.registrationDocs = dbW4.registrationDocs ∧
    dbW4post.legalEntities = dbW4.legalEntities ∧
    dbW4post.naturalPersons = dbW4.naturalPersons.map (fun p =>
      if p.passportData == "6666 666666" then applyNPPatch bW4 p else p) :=
  claim4_no_address_change_frame.1 dbW4 dbW4post "6666 666666" bW4 rfl rfl

/-- Store for the C4 counterexample: the person's document has a diverged
stored address. -/
def dbX4 : DB :=
  { owners := ["Main Street 100", "Side Street 200"],
    naturalPersons := [{ passportData := "5555 555555", lastName := "Иванов",
                         firstName := "Иван", patronymic := "Иванович",
                         address := "Main Street 100" }],
    legalEntities := [],
    registrationDocs := [{ registrationNumber := "R300", address := "Side Street 200",
                           documentOwner := "5555 555555", vin := "ABCDEFGH123456789" }],
    transportVehicles := [], employees := [], users := [] }

/-- PUT body for the C4 counterexample, whose address equals the person's
current address. -/
def bX4 : NPPutBody :=
  { address := "Main Street 100", lastName := "Иванов", firstName := "Иван",
    patronymic := "Иванович" }

/-- Store after the C4 counterexample run: the diverged document was
rewritten to "Main Street 100" although the address did not change. -/
def dbX4post : DB :=
  { dbX4 with registrationDocs := [{ registrationNumber := "R300",
                                     address := "Main Street 100",
                                     documentOwner := "5555 555555",
                                     vin := "ABCDEFGH123456789" }] }

/-- Counterexample to C4 as stated: a successful `updateNaturalPerson`
whose new address equals the person's current address still modifies the
RegistrationDoc table (the party's diverged document is rewritten). -/
theorem claim4_frame_counterexample :
    OwnerInv dbX4 ∧
    (dbX4.naturalPersons.find? (fun p => p.passportData == "5555 555555")).map
        (fun p => p.address) = some bX4.address ∧
    updateNaturalPerson dbX4 "5555 555555" bX4 = .ok dbX4post ∧
    ¬ dbX4post.registrationDocs = dbX4.registrationDocs :=
  ⟨by decide, rfl, rfl, by decide⟩

/-! ## Claim C5 -/

/-- The handler answered with a 400 bad-request error. -/
def isBadRequest : Except ApiError DB → Prop
  | .error (.badRequest _) => True
  | _ => False

/-- C5 (amended).  A body that fails schema validation makes each of the
four owner update/patch handlers answer with a bad-request error and leave
the store unchanged (the error result carries no writes), and no database
read or write is issued — but the transaction has already been opened when
validation runs: the effect trace of a rejected request is exactly
`[txBegin]`, opened before the validation check and neither committed nor
rolled back (the handler returns with `next(...)` instead of throwing).
The claim's "detected before any database transaction is opened" is refuted
by `claim5_validation_transaction_counterexample`. -/
theorem claim5_validation_transaction :
    (∀ (db : DB) (passport : String) (b : NPPutBody), naturalPersonPutOk b = false →
        isBadRequest (updateNaturalPerson db passport b) ∧
        updateNaturalPersonTrace db passport b = [DbEvent.txBegin]) ∧
    (∀ (db : DB) (passport : String) (b : NPPatchBody), naturalPersonPatchOk b = false →
        isBadRequest (patchNaturalPerson db passport b) ∧
        patchNaturalPersonTrace db passport b = [DbEvent.txBegin]) ∧
    (∀ (db : DB) (taxNumber : String) (b : LEPutBody), legalEntityPutOk b = false →
        isBadRequest (updateLegalEntity db taxNumber b) ∧
        updateLegalEntityTrace db taxNumber b = [DbEvent.txBegin]) ∧
    (∀ (db : DB) (taxNumber : String) (b : LEPatchBody), legalEntityPatchOk b = false →
        isBadRequest (patchLegalEntity db taxNumber b) ∧
        patchLegalEntityTrace db taxNumber b = [DbEvent.txBegin]) := by
  refine ⟨?_, ?_, ?_, ?_⟩
  · intro db passport b hv
    constructor
    · unfold updateNaturalPerson
      by_cases h1 : (passport == "") = true
      · rw [if_pos h1]
        trivial
      · rw [if_neg h1]
        by_cases h2 : (!passportFormatOk passport) = true
        · rw [if_pos h2]
          trivial
        · rw [if_neg h2, if_pos (by rw [hv]; rfl)]
          trivial
    · unfold updateNaturalPersonTrace
      by_cases h1 : (passport == "") = true
      · rw [if_pos h1]
      · rw [if_neg h1]
        by_cases h2 : (!passportFormatOk passport) = true
        · rw [if_pos h2]
        · rw [if_neg h2, if_pos (by rw [hv]; rfl)]
  · intro db passport b hv
    constructor
    · unfold patchNaturalPerson
      rw [if_pos (by rw [hv]; rfl)]
      trivial
    · unfold patchNaturalPersonTrace
      rw [if_pos (by rw [hv]; rfl)]
  · intro db taxNumber b hv
    constructor
    · unfold updateLegalEntity
      rw [if_pos (by rw [hv]; rfl)]
      trivial
    · unfold updateLegalEntityTrace
      rw [if_pos (by rw [hv]; rfl)]
  · intro db taxNumber b hv
    constructor
    · unfold patchLegalEntity
      rw [if_pos (by rw [hv]; rfl)]
      trivial
    · unfold patchLegalEntityTrace
      rw [if_pos (by rw [hv]; rfl)]

/-- Invalid PUT body for C5 (address shorter than 8 characters). -/
def bX5 : NPPutBody :=
  { address := "short", lastName := "Иванов", firstName := "Иван",
    patronymic := "Иванович" }

/-- Witness for C5: a concrete invalid body is answered with bad-request
and its trace is exactly the transaction-open event. -/
theorem claim5_validation_transaction_witness :
    isBadRequest (updateNaturalPerson dbW1 "1234 567890" bX5) ∧
    updateNaturalPersonTrace dbW1 "1234 567890" bX5 = [DbEvent.txBegin] :=
  claim5_validation_transaction.1 dbW1 "1234 567890" bX5 (by decide)

/-- Counterexample to C5 as stated: on this invalid body the handler does
return a bad-request error, but its effect trace already contains
`txBegin` — `sequelize.transaction()` runs on the handler's first line,
before validation, so the failure is NOT detected before a transaction is
opened (and the open transaction is neither committed nor rolled back). -/
theorem claim5_validation_transaction_counterexample :
    naturalPersonPutOk bX5 = false ∧
    updateNaturalPerson dbW1 "1234 567890" bX5
      = .error (.badRequest "naturalPersonPutSchema validation failed") ∧
    updateNaturalPersonTrace dbW1 "1234 567890" bX5 = [DbEvent.txBegin] :=
  ⟨by decide, rfl, rfl⟩

/-! ## Claim C6 -/

/-- C6 (amended).  The first `updateTransportVehicle` enforces the policy:
when a `RegistrationDoc` references the vehicle and the (schema-valid) body
supplies a `chassisNumber` different from the stored one, the request fails
with a BadRequest naming `chassisNumber`, and — the result being an error —
the transaction is rolled back and the vehicle row is unchanged.  The
second `updateTransportVehicle` has no such check
(`claim6_chassis_immutability_counterexample`). -/
theorem claim6_chassis_immutability (db : DB) (id : String) (b : VehicleBody)
    (v : TransportVehicle)
    (hval : vehicleSchemaOk b = true)
    (hvin : b.vin = id)
    (hfind : db.transportVehicles.find? (fun w => w.vin == id) = some v)
    (hdocs : (db.registrationDocs.find? (fun d => d.vin == id)).isSome = true)
    (hne : ¬ some b.chassisNumber = v.chassisNumber) :
    updateTransportVehicle db id b
      = .error (.badRequest
          "Cannot change chassisNumber for vehicle with registration documents") := by
  have hv_vin : v.vin = id := by
    have := List.find?_some hfind
    simpa [beq_iff_eq] using this
  have hch : (b.chassisNumber == "") = false := by
    have hlen : strLenOk 5 50 b.chassisNumber = true := by
      simp only [vehicleSchemaOk, Bool.and_eq_true] at hval
      tauto
    rw [beq_eq_false_iff_ne]
    intro hq
    rw [hq] at hlen
    simp [strLenOk] at hlen
  have h1 : (!vehicleSchemaOk b) = false := by rw [hval]; rfl
  have h2 : (!(b.vin == "") && !(b.vin == id)) = false := by
    have hbv : (b.vin == id) = true := by simp [hvin]
    rw [hbv]
    simp
  have h3 : (b.vin == v.vin) = true := by simp [hvin, hv_vin]
  have h4 : (some b.chassisNumber == v.chassisNumber) = false := by
    rw [beq_eq_false_iff_ne]
    exact hne
  unfold updateTransportVehicle
  simp only [h1, h2, Bool.false_eq_true, if_false, hfind, hdocs, h3, h4, hch,
    Bool.not_true, Bool.not_false, Bool.and_false, Bool.false_and, Bool.and_true,
    Bool.true_and, if_true]

/-- Store for the C6 witness: one vehicle with a stored chassis number and a
registration document referencing it. -/
def dbW6 : DB :=
  { owners := [], naturalPersons := [], legalEntities := [],
    registrationDocs := [{ registrationNumber := "R400", address := "Doc Street 44",
                           documentOwner := "1234 567890", vin := "ABCDEFGH123456789" }],
    transportVehicles := [{ vin := "ABCDEFGH123456789", makeAndModel := "Lada Vesta",
                            releaseYear := "2020", manufacture := "AvtoVAZ",
                            typeOfDrive := "FWD", power := "106 hp",
                            chassisNumber := some "CH12345", bodyNumber := "BODY1234",
                            bodyColor := "red", transmissionType := "manual",
                            steeringWheel := "left", engineModel := "VAZ-21179",
                            engineVolume := 1800 }],
    employees := [], users := [] }

/-- Update body for the C6 witness: schema-valid, with a different chassis
number. -/
def bW6 : VehicleBody :=
  { vin := "ABCDEFGH123456789", makeAndModel := "Lada Vesta", releaseYear := "2020",
    manufacture := "AvtoVAZ", typeOfDrive := "FWD", power := "106 hp",
    chassisNumber := "CH99999", bodyNumber := "BODY1234", bodyColor := "red",
    transmissionType := "manual", steeringWheel := "left", engineModel := "VAZ-21179",
    engineVolume := 1800 }

/-- Witness for C6: the first vehicle controller rejects the chassis-number
change of a documented vehicle with the expected BadRequest. -/
theorem claim6_chassis_immutability_witness :
    updateTransportVehicle dbW6 "ABCDEFGH123456789" bW6
      = .error (.badRequest
          "Cannot change chassisNumber for vehicle with registration documents") :=
  claim6_chassis_immutability dbW6 "ABCDEFGH123456789" bW6
    { vin := "ABCDEFGH123456789", makeAndModel := "Lada Vesta", releaseYear := "2020",
      manufacture := "AvtoVAZ", typeOfDrive := "FWD", power := "106 hp",
      chassisNumber := some "CH12345", bodyNumber := "BODY1234", bodyColor := "red",
      transmissionType := "manual", steeringWheel := "left", engineModel := "VAZ-21179",
      engineVolume := 1800 }
    (by decide) rfl rfl rfl (by decide)

/-- Store for the C6 counterexample: a documented vehicle without a chassis
number, handled by the second controller. -/
def dbX6 : DB :=
  { owners := [], naturalPersons := [], legalEntities := [],
    registrationDocs := [{ registrationNumber := "R500", address := "Doc Street 55",
                           documentOwner := "1234567890", vin := "ABCDEFGH123456789" }],
    transportVehicles := [{ vin := "ABCDEFGH123456789", makeAndModel := "Lada Vesta",
                            releaseYear := "2020", manufacture := "AvtoVAZ",
                            typeOfDrive := "FWD", power := "106 hp",
                            chassisNumber := none, bodyNumber := "BODY1234",
                            bodyColor := "red", transmissionType := "MT",
                            steeringWheel := "Левостороннее", engineModel := "VAZ-21179",
                            engineVolume := 1800 }],
    employees := [], users := [] }

/-- Update body for the C6 counterexample: `hasChassisNumber` set. -/
def bX6 : VehicleUpdateBody :=
  { makeAndModel := "Lada Vesta", releaseYear := "2020", manufacture := "AvtoVAZ",
    typeOfDrive := "FWD", power := "106 hp", bodyColor := "red",
    transmissionType := "MT", steeringWheel := "Левостороннее",
    engineModel := "VAZ-21179", engineVolume := 1800, hasChassisNumber := true }

/-- Store after the C6 counterexample run: the chassis number was set to the
VIN although a registration document references the vehicle. -/
def dbX6post : DB :=
  { dbX6 with
      transportVehicles := [{ vin := "ABCDEFGH123456789", makeAndModel := "Lada Vesta",
                              releaseYear := "2020", manufacture := "AvtoVAZ",
                              typeOfDrive := "FWD", power := "106 hp",
                              chassisNumber := some "ABCDEFGH123456789",
                              bodyNumber := "BODY1234", bodyColor := "red",
                              transmissionType := "MT",
                              steeringWheel := "Левостороннее",
                              engineModel := "VAZ-21179", engineVolume := 1800 }] }

/-- Counterexample to C6 as stated: the second `updateTransportVehicle`
succeeds in changing the chassis number of a vehicle referenced by a
registration document (from null to the VIN), with no BadRequest. -/
theorem claim6_chassis_immutability_counterexample :
    (dbX6.registrationDocs.find? (fun d => d.vin == "ABCDEFGH123456789")).isSome = true ∧
    dbX6.transportVehicles.map (fun v => v.chassisNumber) = [none] ∧
    updateTransportVehicleV2 dbX6 "ABCDEFGH123456789" bX6 = .ok dbX6post ∧
    dbX6post.transportVehicles.map (fun v => v.chassisNumber)
      = [some "ABCDEFGH123456789"] :=
  ⟨rfl, rfl, rfl, rfl⟩

/-! ## Claim C7 -/

/-- C7 (amended).  `getAllNaturalPersons` rejects a sort field outside its
allow-list, and a sort order other than ASC/DESC, with a BadRequest and
reads no entity data (its trace is empty).  The first
`getAllTransportVehicle` also detects an unknown `sortBy` before its single
read — but its catch-all wraps the thrown BadRequest into
`ApiError.internal`, so the client receives an Internal error, not a
BadRequest (`claim7_sort_allowlist_counterexample`). -/
theorem claim7_sort_allowlist :
    (∀ (db : DB) (q : NPListQuery) (s : String), q.sortBy = some s →
        ¬(s = "passportData" ∨ s = "address") →
        getAllNaturalPersons db q
          = .error (.badRequest "Invalid sort field. Allowed fields: passportData, address") ∧
        getAllNaturalPersonsTrace db q = []) ∧
    (∀ (db : DB) (q : NPListQuery) (s : String),
        (q.sortBy.getD "passportData" = "passportData" ∨
          q.sortBy.getD "passportData" = "address") →
        q.sortOrder = some s → ¬(strToUpper s = "ASC" ∨ strToUpper s = "DESC") →
        getAllNaturalPersons db q
          = .error (.badRequest "Invalid sort order. Use ASC or DESC") ∧
        getAllNaturalPersonsTrace db q = []) ∧
    (∀ (q : VehicleListQuery) (s : String), q.sortBy = some s →
        ¬(s = "makeAndModel" ∨ s = "releaseYear" ∨ s = "engineVolume") →
        (vehicleListQueryError q).isSome = true) ∧
    (∀ (db : DB) (q : VehicleListQuery) (msg : String),
        vehicleListQueryError q = some msg →
        getAllTransportVehicle db q = .error (.internal msg) ∧
        getAllTransportVehicleTrace db q = []) := by
  refine ⟨?_, ?_, ?_, ?_⟩
  · intro db q s hs hbad
    have hfield : (!((q.sortBy.getD "passportData") == "passportData" ||
        (q.sortBy.getD "passportData") == "address")) = true := by
      rw [hs]
      simp only [Option.getD_some]
      have h1 : (s == "passportData") = false := by
        rw [beq_eq_false_iff_ne]
        exact fun h => hbad (Or.inl h)
      have h2 : (s == "address") = false := by
        rw [beq_eq_false_iff_ne]
        exact fun h => hbad (Or.inr h)
      rw [h1, h2]
      rfl
    constructor
    · unfold getAllNaturalPersons
      dsimp only
      rw [if_pos hfield]
    · unfold getAllNaturalPersonsTrace
      dsimp only
      rw [if_pos hfield]
  · intro db q s hgood hso hbad
    have hfield : (!((q.sortBy.getD "passportData") == "passportData" ||
        (q.sortBy.getD "passportData") == "address")) = false := by
      rcases hgood with h | h <;> rw [h] <;> rfl
    have horder : (!(strToUpper (q.sortOrder.getD "ASC") == "ASC" ||
        strToUpper (q.sortOrder.getD "ASC") == "DESC")) = true := by
      rw [hso]
      simp only [Option.getD_some]
      have h1 : (strToUpper s == "ASC") = false := by
        rw [beq_eq_false_iff_ne]
        exact fun h => hbad (Or.inl h)
      have h2 : (strToUpper s == "DESC") = false := by
        rw [beq_eq_false_iff_ne]
        exact fun h => hbad (Or.inr h)
      rw [h1, h2]
      rfl
    constructor
    · unfold getAllNaturalPersons
      dsimp only
      rw [if_neg (by rw [hfield]; simp), if_pos horder]
    · unfold getAllNaturalPersonsTrace
      dsimp only
      rw [if_neg (by rw [hfield]; simp), if_pos horder]
  · intro q s hs hbad
    unfold vehicleListQueryError
    split_ifs with h1 h2 h3 h4 h5 h6
    · rfl
    · rfl
    · rfl
    · rfl
    · rfl
    · rfl
    · exfalso
      apply hbad
      have h5' : (q.sortBy.all fun t =>
          t == "makeAndModel" || t == "releaseYear" || t == "engineVolume") = true := by
        cases hall : q.sortBy.all fun t =>
            t == "makeAndModel" || t == "releaseYear" || t == "engineVolume"
        · exact absurd (by rw [hall]; rfl) h5
        · rfl
      rw [hs] at h5'
      simp only [Option.all_some] at h5'
      rcases Bool.or_eq_true_iff.mp h5' with h | h
      · rcases Bool.or_eq_true_iff.mp h with h' | h'
        · exact Or.inl (beq_iff_eq.mp h')
        · exact Or.inr (Or.inl (beq_iff_eq.mp h'))
      · exact Or.inr (Or.inr (beq_iff_eq.mp h))
  · intro db q msg h
    constructor
    · unfold getAllTransportVehicle
      rw [h]
    · unfold getAllTransportVehicleTrace
      rw [h]

/-- Natural-person list query with an unknown sort field. -/
def qW7 : NPListQuery :=
  { page := none, limit := none, sortBy := some "unknownField", sortOrder := none }

/-- Witness for C7: the natural-person list rejects `sortBy=unknownField`
with a BadRequest and an empty effect trace. -/
theorem claim7_sort_allowlist_witness :
    getAllNaturalPersons dbW1 qW7
      = .error (.badRequest "Invalid sort field. Allowed fields: passportData, address") ∧
    getAllNaturalPersonsTrace dbW1 qW7 = [] :=
  claim7_sort_allowlist.1 dbW1 qW7 "unknownField" rfl (by decide)

/-- Vehicle list query with an unknown sort field. -/
def qX7 : VehicleListQuery :=
  { limit := none, page := none, makeAndModel := none, releaseYear := none,
    bodyColor := none, typeOfDrive := none, sortBy := some "unknownField",
    sortOrder := none }

/-- Counterexample to C7 as stated: the first `getAllTransportVehicle` with
`sortBy=unknownField` reads no data, but answers with an Internal error —
its catch-all wraps the thrown BadRequest via
`next(ApiError.internal(e.message))` — not with a BadRequest. -/
theorem claim7_sort_allowlist_counterexample :
    getAllTransportVehicle dbW6 qX7
      = .error (.internal "sortBy must be one of makeAndModel, releaseYear, engineVolume") ∧
    getAllTransportVehicleTrace dbW6 qX7 = [] :=
  ⟨rfl, rfl⟩

/-! ## Claim C8 -/

/-- C8 (confirmed).  In both admin employee controllers, a schema-valid
create request whose badge number already belongs to an existing Employee
row is answered with a Conflict error, the transaction is rolled back, and
no write is issued (the Employee table is unchanged: the error result
carries no store, and the effect trace contains no write event). -/
theorem claim8_duplicate_badge_conflict :
    (∀ (db : DB) (b : Employee), employeeSchemaOk b = true →
        (∃ e ∈ db.employees, e.badgeNumber = b.badgeNumber) →
        createEmployee db b
          = .error (.conflict "Employee with this badge number already exists") ∧
        DbEvent.dbWrite ∉ createEmployeeTrace db b) ∧
    (∀ (db : DB) (b : Employee), employeeSchemaV2Ok b = true →
        (∃ e ∈ db.employees, e.badgeNumber = b.badgeNumber) →
        createEmployeeV2 db b
          = .error (.conflict "Employee with this badge number already exists") ∧
        DbEvent.dbWrite ∉ createEmployeeV2Trace db b) := by
  constructor
  · intro db b hval hex
    obtain ⟨e0, he0, hkey⟩ := hex
    have hsome : (db.employees.find? (fun e => e.badgeNumber == b.badgeNumber)).isSome := by
      rw [List.find?_isSome]
      exact ⟨e0, he0, by simp [hkey]⟩
    obtain ⟨e1, hfind⟩ := Option.isSome_iff_exists.mp hsome
    constructor
    · unfold createEmployee
      rw [if_neg (by rw [hval]; simp)]
      simp only [hfind]
    · unfold createEmployeeTrace
      rw [if_neg (by rw [hval]; simp)]
      simp only [hfind]
      decide
  · intro db b hval hex
    obtain ⟨e0, he0, hkey⟩ := hex
    have hsome : (db.employees.find? (fun e => e.badgeNumber == b.badgeNumber)).isSome := by
      rw [List.find?_isSome]
      exact ⟨e0, he0, by simp [hkey]⟩
    obtain ⟨e1, hfind⟩ := Option.isSome_iff_exists.mp hsome
    constructor
    · unfold createEmployeeV2
      rw [if_neg (by rw [hval]; simp)]
      simp only [hfind]
    · unfold createEmployeeV2Trace
      rw [if_neg (by rw [hval]; simp)]
      simp only [hfind]
      decide

/-- Store for the C8 witness on the first controller. -/
def dbW8 : DB :=
  { owners := [], naturalPersons := [], legalEntities := [], registrationDocs := [],
    transportVehicles := [],
    employees := [{ badgeNumber := "ABC12", unitCode := "UNIT01", lastName := "Ivanov",
                    firstName := "Ivan", patronymic := "Ivanovich", rank := "Captain" }],
    users := [] }

/-- Create body reusing the existing badge (first controller's schema). -/
def bW8 : Employee :=
  { badgeNumber := "ABC12", unitCode := "UNIT02", lastName := "Petrov",
    firstName := "Petr", patronymic := "Petrovich", rank := "Major" }

/-- Store for the C8 witness on the second controller. -/
def dbW8v2 : DB :=
  { owners := [], naturalPersons := [], legalEntities := [], registrationDocs := [],
    transportVehicles := [],
    employees := [{ badgeNumber := "12-3456", unitCode := "123456", lastName := "Иванов",
                    firstName := "Иван", patronymic := "Иванович", rank := "Капитан" }],
    users := [] }

/-- Create body reusing the existing badge (second controller's schema). -/
def bW8v2 : Employee :=
  { badgeNumber := "12-3456", unitCode := "654321", lastName := "Петров",
    firstName := "Пётр", patronymic := "Петрович", rank := "Майор" }

/-- Witness for C8: both controllers answer Conflict on a duplicate badge
and write nothing. -/
theorem claim8_duplicate_badge_conflict_witness :
    (createEmployee dbW8 bW8
        = .error (.conflict "Employee with this badge number already exists") ∧
      DbEvent.dbWrite ∉ createEmployeeTrace dbW8 bW8) ∧
    (createEmployeeV2 dbW8v2 bW8v2
        = .error (.conflict "Employee with this badge number already exists") ∧
      DbEvent.dbWrite ∉ createEmployeeV2Trace dbW8v2 bW8v2) :=
  ⟨claim8_duplicate_badge_conflict.1 dbW8 bW8 (by decide)
      ⟨{ badgeNumber := "ABC12", unitCode := "UNIT01", lastName := "Ivanov",
         firstName := "Ivan", patronymic := "Ivanovich", rank := "Captain" },
       by decide, rfl⟩,
    claim8_duplicate_badge_conflict.2 dbW8v2 bW8v2 (by decide)
      ⟨{ badgeNumber := "12-3456", unitCode := "123456", lastName := "Иванов",
         firstName := "Иван", patronymic := "Иванович", rank := "Капитан" },
       by decide, rfl⟩⟩

/-! ## Claim C9 -/

theorem pagesOf_eq_ceilDiv (c l : Nat) : pagesOf c l = c ⌈/⌉ l :=
  (Nat.ceilDiv_eq_add_pred_div c l).symm

/-- C9 (amended).  The admin employee list returns
`{ total, pages, currentPage, data }` with `total` the matching row count,
`pages = ⌈total / limit⌉`, `currentPage` the requested page, rows starting
at offset `(page-1)*limit`, and rejects a `limit` above its bound of 50
with a BadRequest.  The natural-person list, however, responds with
`{ total, page, limit, data }` — it has no `pages` or `currentPage` field —
and accepts any `limit` with no upper bound
(`claim9_list_shape_counterexample`). -/
theorem claim9_list_shape :
    (∀ (db : DB) (q : EmpListQuery) (v : EmpListValue), empListValidate q = .ok v →
        getAllEmployeesV2 db q
          = .ok ([("total", (db.employees.filter (empMatches v)).length),
                  ("pages", (db.employees.filter (empMatches v)).length ⌈/⌉ v.limit),
                  ("currentPage", v.page)],
                 ((sortRowsBy (fun a b =>
                     if v.sortOrder == "desc" then
                       strLe (empSortKey v.sortField b) (empSortKey v.sortField a)
                     else strLe (empSortKey v.sortField a) (empSortKey v.sortField b))
                   (db.employees.filter (empMatches v))).drop
                     ((v.page - 1) * v.limit)).take v.limit)) ∧
    (∀ (db : DB) (q : EmpListQuery) (n : Nat), q.limit = some n → 50 < n →
        getAllEmployeesV2 db q
          = .error (.badRequest "limit must be less than or equal to 50")) ∧
    (∀ (db : DB) (q : NPListQuery),
        (q.sortBy.getD "passportData" = "passportData" ∨
          q.sortBy.getD "passportData" = "address") →
        (strToUpper (q.sortOrder.getD "ASC") = "ASC" ∨
          strToUpper (q.sortOrder.getD "ASC") = "DESC") →
        ∃ rows, getAllNaturalPersons db q
          = .ok ([("total", db.naturalPersons.length), ("page", q.page.getD 1),
                  ("limit", q.limit.getD 10)], rows)) ∧
    (∀ (total page limit : Nat),
        List.lookup "pages" [("total", total), ("page", page), ("limit", limit)]
          = none ∧
        List.lookup "currentPage" [("total", total), ("page", page), ("limit", limit)]
          = none) := by
  refine ⟨?_, ?_, ?_, ?_⟩
  · intro db q v hv
    unfold getAllEmployeesV2
    simp only [hv]
    rw [pagesOf_eq_ceilDiv]
  · intro db q n hn hbound
    have hbad : (q.limit.all (fun m => decide (1 ≤ m) && decide (m ≤ 50))) = false := by
      rw [hn, Option.all_some]
      have : decide (n ≤ 50) = false := by
        simp
        omega
      rw [this, Bool.and_false]
    unfold getAllEmployeesV2 empListValidate
    rw [if_pos (by rw [hbad]; rfl)]
  · intro db q hfield horder
    have h1 : (!((q.sortBy.getD "passportData") == "passportData" ||
        (q.sortBy.getD "passportData") == "address")) = false := by
      rcases hfield with h | h <;> rw [h] <;> rfl
    have h2 : (!(strToUpper (q.sortOrder.getD "ASC") == "ASC" ||
        strToUpper (q.sortOrder.getD "ASC") == "DESC")) = false := by
      rcases horder with h | h <;> rw [h] <;> simp
    refine ⟨((sortRowsBy (fun p1 p2 =>
        if strToUpper (q.sortOrder.getD "ASC") == "DESC" then
          strLe (npSortKey (q.sortBy.getD "passportData") p2)
            (npSortKey (q.sortBy.getD "passportData") p1)
        else strLe (npSortKey (q.sortBy.getD "passportData") p1)
          (npSortKey (q.sortBy.getD "passportData") p2))
      db.naturalPersons).drop ((q.page.getD 1 - 1) * q.limit.getD 10)).take
        (q.limit.getD 10), ?_⟩
    unfold getAllNaturalPersons
    dsimp only
    rw [if_neg (by rw [h1]; simp), if_neg (by rw [h2]; simp)]
  · intro total page limit
    exact ⟨rfl, rfl⟩

/-- Employee list query with an over-bound limit. -/
def qW9 : EmpListQuery :=
  { limit := some 1000, page := none, badgeNumber := none, unitCode := none,
    lastName := none, firstName := none, patronymic := none, rank := none,
    sortField := none, sortOrder := none }

/-- Witness for C9: the employee list rejects `limit=1000` with BadRequest,
and a valid query's response carries total/pages/currentPage with the
offset-paged rows. -/
theorem claim9_list_shape_witness :
    getAllEmployeesV2 dbW8 qW9
      = .error (.badRequest "limit must be less than or equal to 50") ∧
    getAllEmployeesV2 dbW8
        { limit := none, page := none, badgeNumber := none, unitCode := none,
          lastName := none, firstName := none, patronymic := none, rank := none,
          sortField := none, sortOrder := none }
      = .ok ([("total", 1), ("pages", 1), ("currentPage", 1)], dbW8.employees) := by
  constructor
  · exact claim9_list_shape.2.1 dbW8 qW9 1000 rfl (by omega)
  · have h := claim9_list_shape.1 dbW8
        { limit := none, page := none, badgeNumber := none, unitCode := none,
          lastName := none, firstName := none, patronymic := none, rank := none,
          sortField := none, sortOrder := none }
        { limit := 15, page := 1, badgeNumber := none, unitCode := none,
          lastName := none, firstName := none, patronymic := none, rank := none,
          sortField := "lastName", sortOrder := "asc" } rfl
    rw [h]
    rfl

/-- Natural-person list query with an enormous limit and default sorting. -/
def qX9 : NPListQuery :=
  { page := none, limit := some 1000, sortBy := none, sortOrder := none }

/-- Counterexample to C9 as stated: `getAllNaturalPersons` accepts
`limit=1000` (no server-enforced upper bound) and responds with
`{ total, page, limit, data }` — the response has no `pages` and no
`currentPage` field. -/
theorem claim9_list_shape_counterexample :
    getAllNaturalPersons dbW1 qX9
      = .ok ([("total", 1), ("page", 1), ("limit", 1000)], dbW1.naturalPersons) ∧
    List.lookup "pages" [("total", (1 : Nat)), ("page", 1), ("limit", 1000)] = none ∧
    List.lookup "currentPage" [("total", (1 : Nat)), ("page", 1), ("limit", 1000)] = none :=
  ⟨rfl, rfl, rfl⟩

/-! ## Claim C10 -/

theorem map_filter_comm {α : Type} (g : α → α) (p : α → Bool) (l : List α)
    (h : ∀ x, p (g x) = p x) : (l.map g).filter p = (l.filter p).map g := by
  induction l with
  | nil => rfl
  | cons x xs ih =>
      by_cases hx : p x = true <;>
        simp [List.filter_cons, List.map_cons, h, hx, ih]

theorem insertSorted_map_comm {α : Type} (g : α → α) (le : α → α → Bool) (x : α)
    (l : List α) (h : ∀ a b, le (g a) (g b) = le a b) :
    insertSorted le (g x) (l.map g) = (insertSorted le x l).map g := by
  induction l with
  | nil => rfl
  | cons y ys ih =>
      by_cases hc : le x y = true <;>
        simp [insertSorted, h, hc, ih]

theorem sortRowsBy_map_comm {α : Type} (g : α → α) (le : α → α → Bool) (l : List α)
    (h : ∀ a b, le (g a) (g b) = le a b) :
    sortRowsBy le (l.map g) = (sortRowsBy le l).map g := by
  induction l with
  | nil => rfl
  | cons x xs ih =>
      simp only [List.map_cons, sortRowsBy, ih]
      exact insertSorted_map_comm g le x (sortRowsBy le xs) h

/-- C10 (confirmed).  The admin user endpoints never expose the stored
password hash: the list response is unchanged if every stored password is
replaced arbitrarily (the query excludes the `password` attribute), and the
create response is the same for any two valid bodies differing only in
their password and for any two hash functions (the handler strips the
password from the returned object). -/
theorem claim10_password_never_returned :
    (∀ (db : DB) (q : UserListQuery) (f : User → String),
        getAllUser { db with users := db.users.map (fun u => { u with password := f u }) } q
          = getAllUser db q) ∧
    (∀ (h1 h2 : String → String) (db : DB) (b1 b2 : UserBody),
        b1.email = b2.email → b1.role = b2.role → b1.isActive = b2.isActive →
        userSchemaOk b1 = true → userSchemaOk b2 = true →
        (createUser h1 db b1).map (fun r => r.2)
          = (createUser h2 db b2).map (fun r => r.2)) := by
  constructor
  · intro db q f
    unfold getAllUser
    cases h : userListQueryError q
    · dsimp only
      have hfil : ((db.users.map (fun u => { u with password := f u })).filter
            (userMatches q))
          = (db.users.filter (userMatches q)).map (fun u => { u with password := f u }) :=
        map_filter_comm _ _ _ (fun u => rfl)
      rw [hfil, List.length_map]
      have hsort : sortRowsBy (fun u1 u2 => strLe u1.email u2.email)
            ((db.users.filter (userMatches q)).map (fun u => { u with password := f u }))
          = (sortRowsBy (fun u1 u2 => strLe u1.email u2.email)
              (db.users.filter (userMatches q))).map
                (fun u => { u with password := f u }) :=
        sortRowsBy_map_comm _ _ _ (fun a b => rfl)
      rw [hsort, ← List.map_drop, ← List.map_take, List.map_map]
      have hcomp : (toUserView ∘ fun u : User =>
          { email := u.email, password := f u, role := u.role, isActive := u.isActive })
          = toUserView := funext (fun u => rfl)
      rw [hcomp]
    · rfl
  · intro h1 h2 db b1 b2 he hr ha hv1 hv2
    unfold createUser
    rw [if_neg (by rw [hv1]; simp), if_neg (by rw [hv2]; simp), he]
    cases hf : db.users.find? (fun u => u.email == b2.email)
    · simp only [Except.map, toUserView, he, hr, ha]
    · rfl

/-- Store for the C10 witness: two users with stored password hashes. -/
def dbW10 : DB :=
  { owners := [], naturalPersons := [], legalEntities := [], registrationDocs := [],
    transportVehicles := [], employees := [],
    users := [{ email := "alice@mail.ru", password := "hashA", role := "admin",
                isActive := true },
              { email := "bob@mail.ru", password := "hashB", role := "user",
                isActive := false }] }

/-- User list query for the C10 witness. -/
def qW10 : UserListQuery := { limit := none, page := none, search := none, role := none }

/-- Create body (first password) for the C10 witness. -/
def bW10a : UserBody :=
  { email := "carol@mail.ru", password := "secret1", role := "user", isActive := true }

/-- Create body (second password) for the C10 witness. -/
def bW10b : UserBody :=
  { email := "carol@mail.ru", password := "other secret", role := "user", isActive := true }

/-- Witness for C10: replacing every stored password hash leaves the list
response unchanged, and two creates differing only in the password (and the
hash function) produce the same response. -/
theorem claim10_password_never_returned_witness :
    getAllUser { dbW10 with users := dbW10.users.map (fun u =>
        { u with password := String.append u.password "X" }) } qW10
      = getAllUser dbW10 qW10 ∧
    (createUser (fun p => String.append p "h1") dbW10 bW10a).map (fun r => r.2)
      = (createUser (fun p => String.append p "h2h2") dbW10 bW10b).map (fun r => r.2) :=
  ⟨claim10_password_never_returned.1 dbW10 qW10 (fun u => String.append u.password "X"),
   claim10_password_never_returned.2 (fun p => String.append p "h1")
     (fun p => String.append p "h2h2") dbW10 bW10a bW10b rfl rfl rfl
     (by decide) (by decide)⟩
